import Mathlib

/-!
# osm2pgsql: flex output table identity mapping and the gazetteer output

A shallow embedding of

* `flex_table_t::matches_type` and `flex_table_t::map_id` (src/flex-table.hpp), and
* the add/modify handlers of `output_gazetteer_t` (src/output-gazetteer.cpp),

followed by the properties established about them.

Machine integers (`osmid_t`, a signed 64-bit integer) are mathematical integers
with an explicit two's-complement wrap where the code does arithmetic on them.
The collaborators of the gazetteer output (rule engine, middle storage, geometry
builder, copy manager) live outside the two embedded files; they are taken as
parameters, and every call made on them is recorded in a call log.
-/

namespace Osm2pgsql

/-! ## Data model -/

/-- The libosmium enumeration `osmium::item_type`, with all its enumerators. -/
inductive item_type where
  | undefined
  | node
  | way
  | relation
  | area
  | changeset
  | tag_list
  | way_node_list
  | relation_member_list
  | relation_member_list_with_full_members
  | outer_ring
  | inner_ring
  | changeset_discussion
  deriving DecidableEq, Repr

/-- The type `osmid_t`: a signed 64-bit integer, carried as an `Int`. -/
abbrev osmid_t := Int

/-- Whether an integer is representable as `osmid_t` (int64). -/
def osmid_representable (i : Int) : Prop := -(2 ^ 63) ≤ i ∧ i < 2 ^ 63

instance (i : Int) : Decidable (osmid_representable i) := by
  unfold osmid_representable; infer_instance

/-- Two's-complement reduction of an integer to the int64 range. -/
def wrap_osmid (x : Int) : osmid_t := (x + 2 ^ 63) % 2 ^ 64 - 2 ^ 63

/-- The part of `flex_table_t` that the embedded member functions read. -/
structure flex_table_t where
  m_name : String
  m_srid : Int
  m_id_type : item_type := item_type.undefined
  m_append : Bool
  deriving DecidableEq, Repr

namespace flex_table_t

/-- Embedding of `flex_table_t::matches_type`: does this table take objects of the specified type? -/
def matches_type (self : flex_table_t) (type : item_type) : Bool :=
  if self.m_id_type = item_type.undefined then
    true
  else if type = self.m_id_type then
    true
  else
    decide (self.m_id_type = item_type.area) && decide (type ≠ item_type.node)

/-- Embedding of `flex_table_t::map_id`: map way/node/relation id to the id value used in the
database table column. The unary minus is int64 arithmetic. -/
def map_id (self : flex_table_t) (type : item_type) (id : osmid_t) : osmid_t :=
  if self.m_id_type = item_type.area ∧ type = item_type.relation then
    wrap_osmid (-id)
  else
    id

end flex_table_t

/-- An `osmium::TagList`: the tags of an object, in order, as key/value pairs. -/
abbrev TagList := List (String × String)

/-- The libosmium lookup `TagList::operator[]` (`get_value_by_key`): the value of
the first tag whose key is `key`, or the null pointer (`none`) when there is none. -/
def TagList.get_value_by_key (tags : TagList) (key : String) : Option String :=
  match tags with
  | [] => none
  | (k, v) :: rest => if k = key then some v else TagList.get_value_by_key rest key

/-- An `osmium::Location`: a coordinate pair in fixed-point units. -/
structure Location where
  x : Int
  y : Int
  deriving DecidableEq, Repr

/-- An `osmium::NodeRef`: the id of a node and, once resolved, its location. -/
structure NodeRef where
  ref : osmid_t
  location : Option Location
  deriving DecidableEq, Repr

/-- An `osmium::Node`. -/
structure Node where
  id : osmid_t
  tags : TagList
  location : Location
  deriving DecidableEq, Repr

/-- An `osmium::Way`. -/
structure Way where
  id : osmid_t
  tags : TagList
  nodes : List NodeRef
  deriving DecidableEq, Repr

/-- An `osmium::RelationMember`. -/
structure RelationMember where
  type : item_type
  ref : osmid_t
  role : String
  deriving DecidableEq, Repr

/-- An `osmium::Relation`. -/
structure Relation where
  id : osmid_t
  tags : TagList
  members : List RelationMember
  deriving DecidableEq, Repr

/-- An `osmium::OSMObject` as the rule engine receives it. -/
inductive OSMObject where
  | node (n : Node)
  | way (w : Way)
  | relation (r : Relation)
  deriving DecidableEq, Repr

/-- The libosmium test `Way::is_closed`: first and last node reference carry the
same id. (libosmium asserts that the node list is not empty; the empty list is
taken as not closed here.) -/
def Way.is_closed (w : Way) : Bool :=
  match w.nodes.head?, w.nodes.getLast? with
  | some a, some b => decide (a.ref = b.ref)
  | _, _ => false

/-- A well-known-binary geometry (`geom::osmium_builder_t::wkb_t`, a byte string). -/
abbrev wkb_t := String

/-- One call made by the gazetteer output on one of its collaborators. The `double`
argument of the line builders is carried as a rational number. -/
inductive Call where
  /-- Call `m_style.process_tags(o)` -/
  | process_tags (o : OSMObject)
  /-- Call `m_mid->nodes_get_list(&nodes)` -/
  | nodes_get_list (nodes : List NodeRef)
  /-- Call `m_mid->rel_way_members_get(rel, nullptr, osmium_buffer)` -/
  | rel_way_members_get (rel : Relation)
  /-- Call `m_builder.get_wkb_node(loc)` -/
  | get_wkb_node (loc : Location)
  /-- Call `m_builder.get_wkb_polygon(way)` -/
  | get_wkb_polygon (way : Way)
  /-- Call `m_builder.get_wkb_line(nodes, d)` -/
  | get_wkb_line (nodes : List NodeRef) (d : ℚ)
  /-- Call `m_builder.get_wkb_multiline(ways, d)` -/
  | get_wkb_multiline (ways : List Way) (d : ℚ)
  /-- Call `m_builder.get_wkb_multipolygon(rel, ways, b)` -/
  | get_wkb_multipolygon (rel : Relation) (ways : List Way) (b : Bool)
  /-- Call `m_copy.prepare()` -/
  | prepare
  /-- Call `m_copy.delete_object(osm_type, osm_id)` -/
  | delete_object (osm_type : Char) (osm_id : osmid_t)
  /-- Call `m_copy.delete_object(osm_type, osm_id, cls)` -/
  | delete_object_classes (osm_type : Char) (osm_id : osmid_t) (cls : String)
  /-- Call `m_style.copy_out(o, geom, m_copy)` -/
  | copy_out (o : OSMObject) (geom : wkb_t)
  deriving DecidableEq, Repr

/-- Calls that arrive at the copy manager `m_copy` (the bulk-load channel), the row
materialization `copy_out` included, since it writes its rows to `m_copy`. -/
def Call.on_copy_mgr : Call → Bool
  | Call.prepare => true
  | Call.delete_object _ _ => true
  | Call.delete_object_classes _ _ _ => true
  | Call.copy_out _ _ => true
  | _ => false

/-- Calls that queue an operation on the bulk-load channel: a delete or an insert.
`prepare` readies the channel and queues nothing. -/
def Call.queues_op : Call → Bool
  | Call.delete_object _ _ => true
  | Call.delete_object_classes _ _ _ => true
  | Call.copy_out _ _ => true
  | _ => false

/-- Calls on the geometry builder `m_builder`. -/
def Call.on_builder : Call → Bool
  | Call.get_wkb_node _ => true
  | Call.get_wkb_polygon _ => true
  | Call.get_wkb_line _ _ => true
  | Call.get_wkb_multiline _ _ => true
  | Call.get_wkb_multipolygon _ _ _ => true
  | _ => false

/-- Calls on the rule engine that classify an object. -/
def Call.on_rule_engine : Call → Bool
  | Call.process_tags _ => true
  | _ => false

/-- Calls that materialize rows for an object. -/
def Call.is_copy_out : Call → Bool
  | Call.copy_out _ _ => true
  | _ => false

/-- The calls of a log that arrive at the copy manager, in order. -/
def copy_mgr_calls (log : List Call) : List Call := log.filter Call.on_copy_mgr

/-- The operations a log queues on the bulk-load channel, in order. -/
def queued_ops (log : List Call) : List Call := log.filter Call.queues_op

/-- The calls of a log that arrive at the geometry builder, in order. -/
def builder_calls (log : List Call) : List Call := log.filter Call.on_builder

/-- The classification calls of a log, in order. -/
def rule_engine_calls (log : List Call) : List Call := log.filter Call.on_rule_engine

/-- The row materializations of a log, in order. -/
def materializations (log : List Call) : List Call := log.filter Call.is_copy_out

/-- The collaborators of `output_gazetteer_t`, whose code is outside the embedded
file: the rule engine `m_style` (with state of type `σ`), the middle storage
`m_mid` and the geometry builder `m_builder`. -/
structure Collaborators (σ : Type) where
  /-- Call `m_style.process_tags(o)`: the state of the rule engine after the call. -/
  process_tags : σ → OSMObject → σ
  /-- Call `m_style.has_data()` -/
  has_data : σ → Bool
  /-- Call `m_style.class_list()` -/
  class_list : σ → String
  /-- Call `m_mid->nodes_get_list(&nodes)`: the node list after the call. -/
  nodes_get_list : List NodeRef → List NodeRef
  /-- Call `m_mid->rel_way_members_get(rel, nullptr, buffer)`: the returned count and
  the ways placed in the (cleared) buffer. -/
  rel_way_members_get : Relation → Nat × List Way
  /-- Call `m_builder.get_wkb_node(loc)` -/
  get_wkb_node : Location → wkb_t
  /-- Call `m_builder.get_wkb_polygon(way)` -/
  get_wkb_polygon : Way → wkb_t
  /-- Call `m_builder.get_wkb_line(nodes, d)` -/
  get_wkb_line : List NodeRef → ℚ → List wkb_t
  /-- Call `m_builder.get_wkb_multiline(ways, d)` -/
  get_wkb_multiline : List Way → ℚ → List wkb_t
  /-- Call `m_builder.get_wkb_multipolygon(rel, ways, b)` -/
  get_wkb_multipolygon : Relation → List Way → Bool → List wkb_t

/-- The state of an `output_gazetteer_t`: the append option, the state of the rule
engine, and the log of calls made on the collaborators so far (oldest first). -/
structure output_gazetteer_t (σ : Type) where
  append : Bool
  m_style : σ
  log : List Call

namespace output_gazetteer_t

variable {σ : Type}

/-- Record one call in the log. -/
def call (self : output_gazetteer_t σ) (c : Call) : output_gazetteer_t σ :=
  { self with log := self.log ++ [c] }

/-- The call `m_style.process_tags(o)`: the rule engine state is replaced. -/
def style_process_tags (E : Collaborators σ) (self : output_gazetteer_t σ) (o : OSMObject) :
    output_gazetteer_t σ :=
  { self with m_style := E.process_tags self.m_style o, log := self.log ++ [Call.process_tags o] }

/-- Embedding of `output_gazetteer_t::delete_unused_classes`. The result `none` stands for a
failure of `assert(m_style.has_data())`. -/
def delete_unused_classes (E : Collaborators σ) (self : output_gazetteer_t σ)
    (osm_type : Char) (osm_id : osmid_t) : Option (output_gazetteer_t σ) :=
  if self.append then
    let s1 := self.call Call.prepare
    if E.has_data s1.m_style then
      let cls := E.class_list s1.m_style
      some (s1.call (Call.delete_object_classes osm_type osm_id cls))
    else
      none
  else
    some self

/-- Embedding of `output_gazetteer_t::delete_unused_full`. -/
def delete_unused_full (self : output_gazetteer_t σ) (osm_type : Char) (osm_id : osmid_t) :
    output_gazetteer_t σ :=
  if self.append then
    (self.call Call.prepare).call (Call.delete_object osm_type osm_id)
  else
    self

/-- The common tail of the three `process_*` functions:
`delete_unused_classes(c, id); m_style.copy_out(o, geom, m_copy); return true;`. -/
def delete_and_copy_out (E : Collaborators σ) (self : output_gazetteer_t σ)
    (osm_type : Char) (osm_id : osmid_t) (o : OSMObject) (geom : wkb_t) :
    Option (Bool × output_gazetteer_t σ) :=
  match delete_unused_classes E self osm_type osm_id with
  | none => none
  | some s1 => some (true, s1.call (Call.copy_out o geom))

/-- Embedding of `output_gazetteer_t::process_node`. -/
def process_node (E : Collaborators σ) (self : output_gazetteer_t σ) (node : Node) :
    Option (Bool × output_gazetteer_t σ) :=
  let s1 := style_process_tags E self (OSMObject.node node)
  if ¬ E.has_data s1.m_style then
    some (false, s1)
  else
    let wkb := E.get_wkb_node node.location
    let s2 := s1.call (Call.get_wkb_node node.location)
    delete_and_copy_out E s2 'N' node.id (OSMObject.node node) wkb

/-- The shape shared by the six add/modify handlers:
`if (!process(x)) delete_unused_full(c, id);`. -/
def unless_processed (r : Option (Bool × output_gazetteer_t σ)) (osm_type : Char)
    (osm_id : osmid_t) : Option (output_gazetteer_t σ) :=
  match r with
  | none => none
  | some (true, s1) => some s1
  | some (false, s1) => some (delete_unused_full s1 osm_type osm_id)

/-- Embedding of `output_gazetteer_t::node_add`. -/
def node_add (E : Collaborators σ) (self : output_gazetteer_t σ) (node : Node) :
    Option (output_gazetteer_t σ) :=
  unless_processed (process_node E self node) 'N' node.id

/-- Embedding of `output_gazetteer_t::node_modify`. -/
def node_modify (E : Collaborators σ) (self : output_gazetteer_t σ) (node : Node) :
    Option (output_gazetteer_t σ) :=
  unless_processed (process_node E self node) 'N' node.id

/-- The effect of `m_mid->nodes_get_list(&(way.nodes()))` on a way: its node list is
replaced by the resolved one. -/
def resolve_nodes (E : Collaborators σ) (way : Way) : Way :=
  { way with nodes := E.nodes_get_list way.nodes }

/-- Embedding of `output_gazetteer_t::process_way`. -/
def process_way (E : Collaborators σ) (self : output_gazetteer_t σ) (way : Way) :
    Option (Bool × output_gazetteer_t σ) :=
  let s1 := style_process_tags E self (OSMObject.way way)
  if ¬ E.has_data s1.m_style then
    some (false, s1)
  else
    -- Fetch the node details.
    let way1 : Way := resolve_nodes E way
    let s2 := s1.call (Call.nodes_get_list way.nodes)
    -- Get the geometry of the object.
    let geom : wkb_t := if way1.is_closed then E.get_wkb_polygon way1 else ""
    let s3 := if way1.is_closed then s2.call (Call.get_wkb_polygon way1) else s2
    if geom = "" then
      let wkbs := E.get_wkb_line way1.nodes 0
      let s4 := s3.call (Call.get_wkb_line way1.nodes 0)
      match wkbs with
      | [] => some (false, s4)
      | wkb0 :: _ => delete_and_copy_out E s4 'W' way1.id (OSMObject.way way1) wkb0
    else
      delete_and_copy_out E s3 'W' way1.id (OSMObject.way way1) geom

/-- Embedding of `output_gazetteer_t::way_add`. -/
def way_add (E : Collaborators σ) (self : output_gazetteer_t σ) (way : Way) :
    Option (output_gazetteer_t σ) :=
  unless_processed (process_way E self way) 'W' way.id

/-- Embedding of `output_gazetteer_t::way_modify`. -/
def way_modify (E : Collaborators σ) (self : output_gazetteer_t σ) (way : Way) :
    Option (output_gazetteer_t σ) :=
  unless_processed (process_way E self way) 'W' way.id

/-- The rejection test of `process_relation` on the value of the `type` tag:
`strcmp(type, "associatedStreet") == 0 || !(strcmp(type, "boundary") == 0 ||
strcmp(type, "multipolygon") == 0 || is_waterway)`. -/
def relation_type_rejected (type : String) : Bool :=
  let is_waterway := decide (type = "waterway")
  decide (type = "associatedStreet") ||
    !(decide (type = "boundary") || decide (type = "multipolygon") || is_waterway)

/-- The rejection test of `process_relation` with the `associatedStreet`
comparison left out; only used to compare it with `relation_type_rejected`. -/
def relation_type_rejected_without_associatedStreet (type : String) : Bool :=
  let is_waterway := decide (type = "waterway")
  !(decide (type = "boundary") || decide (type = "multipolygon") || is_waterway)

/-- Embedding of `output_gazetteer_t::process_relation`. -/
def process_relation (E : Collaborators σ) (self : output_gazetteer_t σ) (rel : Relation) :
    Option (Bool × output_gazetteer_t σ) :=
  match TagList.get_value_by_key rel.tags "type" with
  | none => some (false, self)
  | some type =>
    let is_waterway := decide (type = "waterway")
    if relation_type_rejected type then
      some (false, self)
    else
      let s1 := style_process_tags E self (OSMObject.relation rel)
      -- Are we interested in this item?
      if ¬ E.has_data s1.m_style then
        some (false, s1)
      else
        -- get the boundary path (ways)
        let num_ways := (E.rel_way_members_get rel).1
        let osmium_buffer := (E.rel_way_members_get rel).2
        let s2 := s1.call (Call.rel_way_members_get rel)
        if num_ways = 0 then
          some (false, s2)
        else
          let buffer1 : List Way := osmium_buffer.map (resolve_nodes E)
          let s3 : output_gazetteer_t σ :=
            { s2 with log := s2.log ++ osmium_buffer.map (fun w => Call.nodes_get_list w.nodes) }
          let geoms :=
            if is_waterway then E.get_wkb_multiline buffer1 0
            else E.get_wkb_multipolygon rel buffer1 true
          let s4 :=
            if is_waterway then s3.call (Call.get_wkb_multiline buffer1 0)
            else s3.call (Call.get_wkb_multipolygon rel buffer1 true)
          match geoms with
          | [] => some (false, s4)
          | geom0 :: _ => delete_and_copy_out E s4 'R' rel.id (OSMObject.relation rel) geom0

/-- Embedding of `output_gazetteer_t::relation_add`. -/
def relation_add (E : Collaborators σ) (self : output_gazetteer_t σ) (rel : Relation) :
    Option (output_gazetteer_t σ) :=
  unless_processed (process_relation E self rel) 'R' rel.id

/-- Embedding of `output_gazetteer_t::relation_modify`. -/
def relation_modify (E : Collaborators σ) (self : output_gazetteer_t σ) (rel : Relation) :
    Option (output_gazetteer_t σ) :=
  unless_processed (process_relation E self rel) 'R' rel.id

end output_gazetteer_t

/-! ## Concrete inputs -/

/-- A table with identity-type filter `area`. -/
def area_table : flex_table_t :=
  flex_table_t.mk "polygons" 4326 item_type.area false

/-- The tags of an object. -/
def OSMObject.tags : OSMObject → TagList
  | OSMObject.node n => n.tags
  | OSMObject.way w => w.tags
  | OSMObject.relation r => r.tags

/-- A small instance of the collaborators. The rule engine finds data exactly when
the object carries a `place` tag, and then lists the class `place`. The middle
storage resolves every node reference and returns one two-node way per member of
type way. The builder returns a polygon for four or more nodes, a line for two or
more nodes, and one multi-geometry for a non-empty list of ways. -/
def demo : Collaborators (Option String) where
  process_tags := fun _ o =>
    if (TagList.get_value_by_key o.tags "place").isSome then some "place" else none
  has_data := fun s => s.isSome
  class_list := fun s => s.getD ""
  nodes_get_list := fun ns =>
    ns.map (fun n => NodeRef.mk n.ref (some (Location.mk n.ref n.ref)))
  rel_way_members_get := fun rel =>
    let ways := (rel.members.filter (fun m => decide (m.type = item_type.way))).map
      (fun m => Way.mk m.ref [] [NodeRef.mk 1 none, NodeRef.mk 2 none])
    (ways.length, ways)
  get_wkb_node := fun _ => "POINT"
  get_wkb_polygon := fun w => if 4 ≤ w.nodes.length then "POLYGON" else ""
  get_wkb_line := fun ns _ => if 2 ≤ ns.length then ["LINESTRING"] else []
  get_wkb_multiline := fun ws _ => if ws.isEmpty then [] else ["MULTILINESTRING"]
  get_wkb_multipolygon := fun _ ws _ => if ws.isEmpty then [] else ["MULTIPOLYGON"]

/-- An output in append mode that has made no call yet. -/
def appending : output_gazetteer_t (Option String) :=
  output_gazetteer_t.mk true none []

/-- An output in fresh (non-append) mode that has made no call yet. -/
def fresh : output_gazetteer_t (Option String) :=
  output_gazetteer_t.mk false none []

/-- A node tagged as a named place. -/
def place_node : Node :=
  Node.mk 1 [("place", "village"), ("name", "Ham")] (Location.mk 10 20)

/-- The same node with the classifying tag removed. -/
def plain_node : Node :=
  Node.mk 1 [("name", "Ham")] (Location.mk 10 20)

/-- An open way of two nodes tagged as a place. -/
def place_way : Way :=
  Way.mk 10 [("place", "locality")] [NodeRef.mk 1 none, NodeRef.mk 2 none]

/-- A way without classifying tags. -/
def plain_way : Way :=
  Way.mk 10 [("note", "x")] [NodeRef.mk 1 none, NodeRef.mk 2 none]

/-- A closed way of three node references (a degenerate ring) tagged as a place. -/
def degenerate_ring : Way :=
  Way.mk 11 [("place", "locality")] [NodeRef.mk 1 none, NodeRef.mk 2 none, NodeRef.mk 1 none]

/-- A way with a single node reference tagged as a place: neither a polygon nor a
line can be built from it. -/
def single_node_way : Way :=
  Way.mk 12 [("place", "locality")] [NodeRef.mk 1 none]

/-- A multipolygon relation with one member way, tagged as a place. -/
def multipolygon_rel : Relation :=
  Relation.mk 20 [("type", "multipolygon"), ("place", "island")]
    [RelationMember.mk item_type.way 10 "outer"]

/-- A waterway relation with one member way, tagged as a place. -/
def waterway_rel : Relation :=
  Relation.mk 23 [("type", "waterway"), ("place", "river")]
    [RelationMember.mk item_type.way 10 "main_stream"]

/-- A multipolygon relation tagged as a place that has no member way. -/
def memberless_rel : Relation :=
  Relation.mk 21 [("type", "multipolygon"), ("place", "island")] []

/-- A multipolygon relation without classifying tags. -/
def plain_rel : Relation :=
  Relation.mk 22 [("type", "multipolygon")] [RelationMember.mk item_type.way 10 "outer"]

/-- A relation of type `associatedStreet` that also carries a classifying tag. -/
def street_rel : Relation :=
  Relation.mk 24 [("type", "associatedStreet"), ("place", "square")]
    [RelationMember.mk item_type.way 10 "street"]

/-! ## Identity mapping of the flex table -/

/-- Inside the int64 range the two's-complement reduction changes nothing. -/
theorem wrap_osmid_eq_self (x : Int) (h1 : -(2 ^ 63) ≤ x) (h2 : x < 2 ^ 63) :
    wrap_osmid x = x := by
  show ((x + 2 ^ 63) % 2 ^ 64 - 2 ^ 63 : Int) = x
  have h : (x + 2 ^ 63) % 2 ^ 64 = x + 2 ^ 63 := Int.emod_eq_of_lt (by omega) (by omega)
  rw [h]
  omega

/-- C1: `matches_type(t)` is true exactly when the filter is `undefined` (any), or `t`
equals the filter, or the filter is `area` and `t` is not `node`; with the listed
special cases for the filters any, node and area. -/
theorem matches_type_iff (self : flex_table_t) (t : item_type) :
    (self.matches_type t = true ↔
      (self.m_id_type = item_type.undefined ∨ t = self.m_id_type ∨
        (self.m_id_type = item_type.area ∧ t ≠ item_type.node))) ∧
    (∀ (n : String) (s : Int) (a : Bool),
      (flex_table_t.mk n s item_type.undefined a).matches_type t = true ∧
      (flex_table_t.mk n s item_type.node a).matches_type item_type.node = true ∧
      (flex_table_t.mk n s item_type.node a).matches_type item_type.way = false ∧
      ((flex_table_t.mk n s item_type.area a).matches_type t = true ↔ t ≠ item_type.node) ∧
      (flex_table_t.mk n s item_type.area a).matches_type item_type.node = false) := by
  refine ⟨?_, ?_⟩
  · unfold flex_table_t.matches_type
    by_cases h1 : self.m_id_type = item_type.undefined
    · simp [h1]
    · by_cases h2 : t = self.m_id_type
      · simp [h2]
      · simp [h1, h2]
  · intro n s a
    cases t <;> simp [flex_table_t.matches_type]

/-- C2 (counterexample): the most negative `osmid_t` is representable, yet on an area
table `map_id(relation, r)` does not return the integer `-r` for it. -/
theorem map_id_min_not_negated :
    osmid_representable (-(2 ^ 63)) ∧
      area_table.map_id item_type.relation (-(2 ^ 63)) ≠ -(-(2 ^ 63)) := by
  refine ⟨by decide, ?_⟩
  simp [area_table, flex_table_t.map_id, wrap_osmid]

/-- C2 (amended): `map_id` on an area table returns `-r` for a relation for every id
`r` with `-2^63 < r < 2^63`; for every integer `r`, it returns the id unchanged for a
way, on every table whose filter is not area, and for every entity type other than
relation. -/
theorem map_id_spec (self : flex_table_t) (type : item_type) (r : Int) :
    (-(2 ^ 63) < r ∧ r < 2 ^ 63 → self.m_id_type = item_type.area →
      self.map_id item_type.relation r = -r) ∧
    self.map_id item_type.way r = r ∧
    (self.m_id_type ≠ item_type.area → self.map_id type r = r) ∧
    (type ≠ item_type.relation → self.map_id type r = r) := by
  refine ⟨?_, ?_, ?_, ?_⟩
  · rintro ⟨h1, h2⟩ ha
    simp only [flex_table_t.map_id, ha, and_self, if_true]
    exact wrap_osmid_eq_self (-r) (by omega) (by omega)
  · simp [flex_table_t.map_id]
  · intro ha
    simp [flex_table_t.map_id, ha]
  · intro ht
    simp [flex_table_t.map_id, ht]

/-- Witness for `map_id_spec`: relation 5 on an area table is stored as -5, and the
most negative id is kept unchanged for a way. -/
theorem map_id_spec_witness :
    ((-(2 ^ 63) < (5 : Int) ∧ (5 : Int) < 2 ^ 63) ∧
      area_table.m_id_type = item_type.area ∧
      area_table.map_id item_type.relation 5 = -5) ∧
    area_table.map_id item_type.way (-(2 ^ 63)) = -(2 ^ 63) ∧
    (item_type.node ≠ item_type.relation ∧
      area_table.map_id item_type.node (-(2 ^ 63)) = -(2 ^ 63)) :=
  ⟨⟨by decide, rfl, (map_id_spec area_table item_type.relation 5).1 (by decide) rfl⟩,
    (map_id_spec area_table item_type.node (-(2 ^ 63))).2.1,
    by decide, (map_id_spec area_table item_type.node (-(2 ^ 63))).2.2.2 (by decide)⟩

/-- C3: on an area table, `map_id` is injective on (way or relation, strictly positive
id) pairs; in particular a way-derived and a relation-derived area never receive the
same stored id. -/
theorem map_id_area_injective (self : flex_table_t) (t1 t2 : item_type) (i1 i2 : Int)
    (harea : self.m_id_type = item_type.area)
    (ht1 : t1 = item_type.way ∨ t1 = item_type.relation)
    (ht2 : t2 = item_type.way ∨ t2 = item_type.relation)
    (h1 : 0 < i1 ∧ osmid_representable i1) (h2 : 0 < i2 ∧ osmid_representable i2) :
    (self.map_id t1 i1 = self.map_id t2 i2 → t1 = t2 ∧ i1 = i2) ∧
    self.map_id item_type.way i1 ≠ self.map_id item_type.relation i2 := by
  obtain ⟨p1, -, q1⟩ := h1
  obtain ⟨p2, -, q2⟩ := h2
  have w1 : wrap_osmid (-i1) = -i1 := wrap_osmid_eq_self (-i1) (by omega) (by omega)
  have w2 : wrap_osmid (-i2) = -i2 := wrap_osmid_eq_self (-i2) (by omega) (by omega)
  refine ⟨?_, ?_⟩
  · rcases ht1 with rfl | rfl <;> rcases ht2 with rfl | rfl <;>
      simp only [flex_table_t.map_id, harea, true_and, and_true, and_false, and_self,
        if_true, if_false, w1, w2, reduceCtorEq] <;>
      intro (h : @Eq Int _ _) <;>
      first | exact h | (exfalso; omega) | (show @Eq Int _ _; omega)
  · simp only [flex_table_t.map_id, harea, true_and, and_true, and_false, and_self,
      if_true, if_false, w2, reduceCtorEq]
    intro (h : @Eq Int _ _)
    omega

/-- Witness for `map_id_area_injective`: relation 7 against relation 7 on an area table. -/
theorem map_id_area_injective_witness :
    area_table.m_id_type = item_type.area ∧
    (0 < (7 : Int) ∧ osmid_representable 7) ∧
    (area_table.map_id item_type.relation 7 = area_table.map_id item_type.relation 7 →
        item_type.relation = item_type.relation ∧ (7 : Int) = 7) ∧
      area_table.map_id item_type.way 7 ≠ area_table.map_id item_type.relation 7 :=
  ⟨rfl, ⟨by decide, by decide⟩,
    map_id_area_injective area_table item_type.relation item_type.relation 7 7 rfl
      (Or.inr rfl) (Or.inr rfl) ⟨by decide, by decide⟩ ⟨by decide, by decide⟩⟩

/-! ## The gazetteer output -/

section gazetteer

open output_gazetteer_t

variable {σ : Type}

/-- With data present, the common tail of the `process_*` functions succeeds: it
queues the class-exclusion delete in append mode only, then materializes the rows. -/
theorem delete_and_copy_out_eq (E : Collaborators σ) (g : output_gazetteer_t σ)
    (c : Char) (id : Int) (o : OSMObject) (geom : wkb_t) (h : E.has_data g.m_style = true) :
    delete_and_copy_out E g c id o geom =
      some (true,
        { append := g.append, m_style := g.m_style,
          log := g.log ++
            ((if g.append = true then
                [Call.prepare, Call.delete_object_classes c id (E.class_list g.m_style)]
              else []) ++ [Call.copy_out o geom]) }) := by
  unfold delete_and_copy_out delete_unused_classes
  by_cases ha : g.append = true <;> simp [ha, h, call]

/-- Closed form of `process_node`. -/
theorem process_node_eq (E : Collaborators σ) (g : output_gazetteer_t σ) (node : Node) :
    process_node E g node =
      some (if E.has_data (E.process_tags g.m_style (OSMObject.node node)) = true then
        (true,
          { append := g.append, m_style := E.process_tags g.m_style (OSMObject.node node),
            log := g.log ++ ([Call.process_tags (OSMObject.node node),
              Call.get_wkb_node node.location] ++
              ((if g.append = true then
                  [Call.prepare, Call.delete_object_classes 'N' node.id
                    (E.class_list (E.process_tags g.m_style (OSMObject.node node)))]
                else []) ++
              [Call.copy_out (OSMObject.node node) (E.get_wkb_node node.location)])) })
      else
        (false,
          { append := g.append, m_style := E.process_tags g.m_style (OSMObject.node node),
            log := g.log ++ [Call.process_tags (OSMObject.node node)] })) := by
  unfold process_node
  by_cases hd : E.has_data (E.process_tags g.m_style (OSMObject.node node)) = true
  · simp [delete_and_copy_out_eq, hd, style_process_tags, call]
  · simp [hd, style_process_tags, call]

/-- C10: the assertion in `delete_unused_classes` never fails. Each of the six
handlers returns normally for every rule engine, state, mode and entity; and a
`process_*` function that returns true, which is exactly when it has reached
`delete_unused_classes`, leaves the rule engine in the state produced by
`process_tags` on the current entity, with `has_data` true. -/
theorem assertion_never_fails (E : Collaborators σ) (g : output_gazetteer_t σ)
    (node : Node) (way : Way) (rel : Relation) :
    ((node_add E g node).isSome = true ∧ (node_modify E g node).isSome = true ∧
      (way_add E g way).isSome = true ∧ (way_modify E g way).isSome = true ∧
      (relation_add E g rel).isSome = true ∧ (relation_modify E g rel).isSome = true) ∧
    (∃ r, process_node E g node = some r ∧
      (r.1 = true → r.2.m_style = E.process_tags g.m_style (OSMObject.node node) ∧
        E.has_data r.2.m_style = true)) ∧
    (∃ r, process_way E g way = some r ∧
      (r.1 = true → r.2.m_style = E.process_tags g.m_style (OSMObject.way way) ∧
        E.has_data r.2.m_style = true)) ∧
    (∃ r, process_relation E g rel = some r ∧
      (r.1 = true → r.2.m_style = E.process_tags g.m_style (OSMObject.relation rel) ∧
        E.has_data r.2.m_style = true)) := by
  have hnode := process_node_eq E g node
  refine ⟨⟨?_, ?_, ?_, ?_, ?_, ?_⟩, ?_, ?_, ?_⟩
  · unfold node_add; rw [hnode]; split_ifs <;> simp [unless_processed]
  · unfold node_modify; rw [hnode]; split_ifs <;> simp [unless_processed]
  · unfold way_add process_way
    by_cases hd : E.has_data (E.process_tags g.m_style (OSMObject.way way)) = true
    · by_cases hc : (resolve_nodes E way).is_closed = true <;>
        by_cases hp : E.get_wkb_polygon (resolve_nodes E way) = "" <;>
        cases hl : E.get_wkb_line (resolve_nodes E way).nodes 0 <;>
        simp [hd, hc, hp, hl, delete_and_copy_out_eq, style_process_tags, call,
          unless_processed]
    · simp [hd, style_process_tags, unless_processed]
  · unfold way_modify process_way
    by_cases hd : E.has_data (E.process_tags g.m_style (OSMObject.way way)) = true
    · by_cases hc : (resolve_nodes E way).is_closed = true <;>
        by_cases hp : E.get_wkb_polygon (resolve_nodes E way) = "" <;>
        cases hl : E.get_wkb_line (resolve_nodes E way).nodes 0 <;>
        simp [hd, hc, hp, hl, delete_and_copy_out_eq, style_process_tags, call,
          unless_processed]
    · simp [hd, style_process_tags, unless_processed]
  · unfold relation_add process_relation
    cases ht : TagList.get_value_by_key rel.tags "type" with
    | none => simp [unless_processed]
    | some type =>
      by_cases hr : relation_type_rejected type = true
      · simp [hr, unless_processed]
      · by_cases hd : E.has_data (E.process_tags g.m_style (OSMObject.relation rel)) = true
        · by_cases hn : (E.rel_way_members_get rel).1 = 0
          · simp [hr, hd, hn, style_process_tags, call, unless_processed]
          · by_cases hw : type = "waterway"
            · subst hw
              cases hg : E.get_wkb_multiline
                  ((E.rel_way_members_get rel).2.map (resolve_nodes E)) 0 <;>
                simp [hr, hd, hn, hg, delete_and_copy_out_eq, style_process_tags, call,
                  unless_processed]
            · cases hg : E.get_wkb_multipolygon rel
                  ((E.rel_way_members_get rel).2.map (resolve_nodes E)) true <;>
                simp [hr, hd, hn, hw, hg, delete_and_copy_out_eq, style_process_tags, call,
                  unless_processed]
        · simp [hr, hd, style_process_tags, unless_processed]
  · unfold relation_modify process_relation
    cases ht : TagList.get_value_by_key rel.tags "type" with
    | none => simp [unless_processed]
    | some type =>
      by_cases hr : relation_type_rejected type = true
      · simp [hr, unless_processed]
      · by_cases hd : E.has_data (E.process_tags g.m_style (OSMObject.relation rel)) = true
        · by_cases hn : (E.rel_way_members_get rel).1 = 0
          · simp [hr, hd, hn, style_process_tags, call, unless_processed]
          · by_cases hw : type = "waterway"
            · subst hw
              cases hg : E.get_wkb_multiline
                  ((E.rel_way_members_get rel).2.map (resolve_nodes E)) 0 <;>
                simp [hr, hd, hn, hg, delete_and_copy_out_eq, style_process_tags, call,
                  unless_processed]
            · cases hg : E.get_wkb_multipolygon rel
                  ((E.rel_way_members_get rel).2.map (resolve_nodes E)) true <;>
                simp [hr, hd, hn, hw, hg, delete_and_copy_out_eq, style_process_tags, call,
                  unless_processed]
        · simp [hr, hd, style_process_tags, unless_processed]
  · rw [hnode]
    refine ⟨_, rfl, ?_⟩
    split_ifs with hd <;> simp [hd]
  · unfold process_way
    by_cases hd : E.has_data (E.process_tags g.m_style (OSMObject.way way)) = true
    · by_cases hc : (resolve_nodes E way).is_closed = true <;>
        by_cases hp : E.get_wkb_polygon (resolve_nodes E way) = "" <;>
        cases hl : E.get_wkb_line (resolve_nodes E way).nodes 0 <;>
        simp [hd, hc, hp, hl, delete_and_copy_out_eq, style_process_tags, call,
          unless_processed]
    · simp [hd, style_process_tags, unless_processed]
  · unfold process_relation
    cases ht : TagList.get_value_by_key rel.tags "type" with
    | none => simp [unless_processed]
    | some type =>
      by_cases hr : relation_type_rejected type = true
      · simp [hr, unless_processed]
      · by_cases hd : E.has_data (E.process_tags g.m_style (OSMObject.relation rel)) = true
        · by_cases hn : (E.rel_way_members_get rel).1 = 0
          · simp [hr, hd, hn, style_process_tags, call, unless_processed]
          · by_cases hw : type = "waterway"
            · subst hw
              cases hg : E.get_wkb_multiline
                  ((E.rel_way_members_get rel).2.map (resolve_nodes E)) 0 <;>
                simp [hr, hd, hn, hg, delete_and_copy_out_eq, style_process_tags, call,
                  unless_processed]
            · cases hg : E.get_wkb_multipolygon rel
                  ((E.rel_way_members_get rel).2.map (resolve_nodes E)) true <;>
                simp [hr, hd, hn, hw, hg, delete_and_copy_out_eq, style_process_tags, call,
                  unless_processed]
        · simp [hr, hd, style_process_tags, unless_processed]

/-- The assertion is a real obligation: called on a state whose rule engine has no
data, in append mode, `delete_unused_classes` fails. -/
theorem delete_unused_classes_fails_without_data :
    demo.has_data appending.m_style = false ∧
    delete_unused_classes demo appending 'N' 1 = none :=
  ⟨rfl, rfl⟩

/-- Witness for `assertion_never_fails`: the six handlers return normally on a place
node, a place way and a place multipolygon relation in append mode, where
`delete_unused_classes` is reached with the assertion active. -/
theorem assertion_never_fails_witness :
    (node_add demo appending place_node).isSome = true ∧
    (node_modify demo appending place_node).isSome = true ∧
    (way_add demo appending place_way).isSome = true ∧
    (way_modify demo appending place_way).isSome = true ∧
    (relation_add demo appending multipolygon_rel).isSome = true ∧
    (relation_modify demo appending multipolygon_rel).isSome = true :=
  (assertion_never_fails demo appending place_node place_way multipolygon_rel).1

/-- Resolving the nodes of a way leaves its id unchanged. -/
theorem resolve_nodes_id (E : Collaborators σ) (way : Way) : (resolve_nodes E way).id = way.id :=
  rfl

/-- The node resolutions of a list of ways contribute nothing to a view of the log
that does not select `nodes_get_list` calls. -/
theorem filter_nodes_get_list (p : Call → Bool) (hp : ∀ ns, p (Call.nodes_get_list ns) = false)
    (ws : List Way) :
    List.filter p (List.map (fun w => Call.nodes_get_list w.nodes) ws) = [] := by
  induction ws with
  | nil => rfl
  | cons w ws ih => simp [hp, ih]


/-- C6: in append mode, when the rule engine reports no data for the tags of the
entity, the add/modify handler of that entity makes exactly the copy manager calls
`prepare` and the unconditional `delete_object(c, id)`, so it queues exactly that one
delete, no class-exclusion delete and no row materialization. Stated for nodes, ways
and relations separately, each under its own condition only. -/
theorem no_data_unconditional_delete (E : Collaborators σ) (g : output_gazetteer_t σ)
    (node : Node) (way : Way) (rel : Relation) (ha : g.append = true) :
    ((E.has_data (E.process_tags g.m_style (OSMObject.node node)) = false) →
    ((node_add E g node).map (fun s => (copy_mgr_calls s.log, queued_ops s.log)) =
      some (copy_mgr_calls g.log ++ [Call.prepare, Call.delete_object 'N' node.id],
        queued_ops g.log ++ [Call.delete_object 'N' node.id])) ∧
    ((node_modify E g node).map (fun s => (copy_mgr_calls s.log, queued_ops s.log)) =
      some (copy_mgr_calls g.log ++ [Call.prepare, Call.delete_object 'N' node.id],
        queued_ops g.log ++ [Call.delete_object 'N' node.id]))) ∧
    ((E.has_data (E.process_tags g.m_style (OSMObject.way way)) = false) →
    ((way_add E g way).map (fun s => (copy_mgr_calls s.log, queued_ops s.log)) =
      some (copy_mgr_calls g.log ++ [Call.prepare, Call.delete_object 'W' way.id],
        queued_ops g.log ++ [Call.delete_object 'W' way.id])) ∧
    ((way_modify E g way).map (fun s => (copy_mgr_calls s.log, queued_ops s.log)) =
      some (copy_mgr_calls g.log ++ [Call.prepare, Call.delete_object 'W' way.id],
        queued_ops g.log ++ [Call.delete_object 'W' way.id]))) ∧
    ((E.has_data (E.process_tags g.m_style (OSMObject.relation rel)) = false) →
    ((relation_add E g rel).map (fun s => (copy_mgr_calls s.log, queued_ops s.log)) =
      some (copy_mgr_calls g.log ++ [Call.prepare, Call.delete_object 'R' rel.id],
        queued_ops g.log ++ [Call.delete_object 'R' rel.id])) ∧
    ((relation_modify E g rel).map (fun s => (copy_mgr_calls s.log, queued_ops s.log)) =
      some (copy_mgr_calls g.log ++ [Call.prepare, Call.delete_object 'R' rel.id],
        queued_ops g.log ++ [Call.delete_object 'R' rel.id]))) := by
  refine ⟨?_, ?_, ?_⟩
  · intro hnode
    refine ⟨?_, ?_⟩
    · unfold node_add
      rw [process_node_eq]
      simp_all [unless_processed, delete_unused_full, call, copy_mgr_calls, queued_ops, Call.on_copy_mgr, Call.queues_op,
            filter_nodes_get_list]
    · unfold node_modify
      rw [process_node_eq]
      simp_all [unless_processed, delete_unused_full, call, copy_mgr_calls, queued_ops, Call.on_copy_mgr, Call.queues_op,
            filter_nodes_get_list]
  · intro hway
    refine ⟨?_, ?_⟩
    · unfold way_add process_way
      by_cases hd : E.has_data (E.process_tags g.m_style (OSMObject.way way)) = true
      · by_cases hc : (resolve_nodes E way).is_closed = true <;>
          by_cases hp : E.get_wkb_polygon (resolve_nodes E way) = "" <;>
          cases hl : E.get_wkb_line (resolve_nodes E way).nodes 0 <;>
          simp_all [delete_and_copy_out_eq, style_process_tags, call, unless_processed,
            delete_unused_full, resolve_nodes_id, copy_mgr_calls, queued_ops, Call.on_copy_mgr, Call.queues_op,
            filter_nodes_get_list]
      · simp_all [style_process_tags, call, unless_processed, delete_unused_full, copy_mgr_calls, queued_ops, Call.on_copy_mgr, Call.queues_op,
            filter_nodes_get_list]
    · unfold way_modify process_way
      by_cases hd : E.has_data (E.process_tags g.m_style (OSMObject.way way)) = true
      · by_cases hc : (resolve_nodes E way).is_closed = true <;>
          by_cases hp : E.get_wkb_polygon (resolve_nodes E way) = "" <;>
          cases hl : E.get_wkb_line (resolve_nodes E way).nodes 0 <;>
          simp_all [delete_and_copy_out_eq, style_process_tags, call, unless_processed,
            delete_unused_full, resolve_nodes_id, copy_mgr_calls, queued_ops, Call.on_copy_mgr, Call.queues_op,
            filter_nodes_get_list]
      · simp_all [style_process_tags, call, unless_processed, delete_unused_full, copy_mgr_calls, queued_ops, Call.on_copy_mgr, Call.queues_op,
            filter_nodes_get_list]
  · intro hrel
    refine ⟨?_, ?_⟩
    · unfold relation_add process_relation
      cases ht : TagList.get_value_by_key rel.tags "type" with
      | none => simp_all [unless_processed, delete_unused_full, call, copy_mgr_calls, queued_ops, Call.on_copy_mgr, Call.queues_op,
            filter_nodes_get_list]
      | some type0 =>
        by_cases hr : relation_type_rejected type0 = true
        · simp_all [unless_processed, delete_unused_full, call, copy_mgr_calls, queued_ops, Call.on_copy_mgr, Call.queues_op,
            filter_nodes_get_list]
        · by_cases hd : E.has_data (E.process_tags g.m_style (OSMObject.relation rel)) = true
          · by_cases hn : (E.rel_way_members_get rel).1 = 0
            · simp_all [style_process_tags, call, unless_processed, delete_unused_full, copy_mgr_calls, queued_ops, Call.on_copy_mgr, Call.queues_op,
            filter_nodes_get_list]
            · by_cases hw : type0 = "waterway"
              · subst hw
                cases hg : E.get_wkb_multiline
                    ((E.rel_way_members_get rel).2.map (resolve_nodes E)) 0 <;>
                  simp_all [delete_and_copy_out_eq, style_process_tags, call,
                    unless_processed, delete_unused_full, copy_mgr_calls, queued_ops, Call.on_copy_mgr, Call.queues_op,
            filter_nodes_get_list]
              · cases hg : E.get_wkb_multipolygon rel
                    ((E.rel_way_members_get rel).2.map (resolve_nodes E)) true <;>
                  simp_all [delete_and_copy_out_eq, style_process_tags, call,
                    unless_processed, delete_unused_full, copy_mgr_calls, queued_ops, Call.on_copy_mgr, Call.queues_op,
            filter_nodes_get_list]
          · simp_all [style_process_tags, call, unless_processed, delete_unused_full, copy_mgr_calls, queued_ops, Call.on_copy_mgr, Call.queues_op,
            filter_nodes_get_list]
    · unfold relation_modify process_relation
      cases ht : TagList.get_value_by_key rel.tags "type" with
      | none => simp_all [unless_processed, delete_unused_full, call, copy_mgr_calls, queued_ops, Call.on_copy_mgr, Call.queues_op,
            filter_nodes_get_list]
      | some type0 =>
        by_cases hr : relation_type_rejected type0 = true
        · simp_all [unless_processed, delete_unused_full, call, copy_mgr_calls, queued_ops, Call.on_copy_mgr, Call.queues_op,
            filter_nodes_get_list]
        · by_cases hd : E.has_data (E.process_tags g.m_style (OSMObject.relation rel)) = true
          · by_cases hn : (E.rel_way_members_get rel).1 = 0
            · simp_all [style_process_tags, call, unless_processed, delete_unused_full, copy_mgr_calls, queued_ops, Call.on_copy_mgr, Call.queues_op,
            filter_nodes_get_list]
            · by_cases hw : type0 = "waterway"
              · subst hw
                cases hg : E.get_wkb_multiline
                    ((E.rel_way_members_get rel).2.map (resolve_nodes E)) 0 <;>
                  simp_all [delete_and_copy_out_eq, style_process_tags, call,
                    unless_processed, delete_unused_full, copy_mgr_calls, queued_ops, Call.on_copy_mgr, Call.queues_op,
            filter_nodes_get_list]
              · cases hg : E.get_wkb_multipolygon rel
                    ((E.rel_way_members_get rel).2.map (resolve_nodes E)) true <;>
                  simp_all [delete_and_copy_out_eq, style_process_tags, call,
                    unless_processed, delete_unused_full, copy_mgr_calls, queued_ops, Call.on_copy_mgr, Call.queues_op,
            filter_nodes_get_list]
          · simp_all [style_process_tags, call, unless_processed, delete_unused_full, copy_mgr_calls, queued_ops, Call.on_copy_mgr, Call.queues_op,
            filter_nodes_get_list]

/-- Witness for `no_data_unconditional_delete`: a node, a way and a relation without
classifying tags, in append mode. -/
theorem no_data_unconditional_delete_witness :
    (appending.append = true) ∧
    ((demo.has_data (demo.process_tags appending.m_style (OSMObject.node plain_node)) = false) ∧
    ((node_add demo appending plain_node).map (fun s => (copy_mgr_calls s.log, queued_ops s.log)) =
      some (copy_mgr_calls appending.log ++ [Call.prepare, Call.delete_object 'N' plain_node.id],
        queued_ops appending.log ++ [Call.delete_object 'N' plain_node.id])) ∧
    ((node_modify demo appending plain_node).map (fun s => (copy_mgr_calls s.log, queued_ops s.log)) =
      some (copy_mgr_calls appending.log ++ [Call.prepare, Call.delete_object 'N' plain_node.id],
        queued_ops appending.log ++ [Call.delete_object 'N' plain_node.id]))) ∧
    ((demo.has_data (demo.process_tags appending.m_style (OSMObject.way plain_way)) = false) ∧
    ((way_add demo appending plain_way).map (fun s => (copy_mgr_calls s.log, queued_ops s.log)) =
      some (copy_mgr_calls appending.log ++ [Call.prepare, Call.delete_object 'W' plain_way.id],
        queued_ops appending.log ++ [Call.delete_object 'W' plain_way.id])) ∧
    ((way_modify demo appending plain_way).map (fun s => (copy_mgr_calls s.log, queued_ops s.log)) =
      some (copy_mgr_calls appending.log ++ [Call.prepare, Call.delete_object 'W' plain_way.id],
        queued_ops appending.log ++ [Call.delete_object 'W' plain_way.id]))) ∧
    ((demo.has_data (demo.process_tags appending.m_style (OSMObject.relation plain_rel)) = false) ∧
    ((relation_add demo appending plain_rel).map (fun s => (copy_mgr_calls s.log, queued_ops s.log)) =
      some (copy_mgr_calls appending.log ++ [Call.prepare, Call.delete_object 'R' plain_rel.id],
        queued_ops appending.log ++ [Call.delete_object 'R' plain_rel.id])) ∧
    ((relation_modify demo appending plain_rel).map (fun s => (copy_mgr_calls s.log, queued_ops s.log)) =
      some (copy_mgr_calls appending.log ++ [Call.prepare, Call.delete_object 'R' plain_rel.id],
        queued_ops appending.log ++ [Call.delete_object 'R' plain_rel.id]))) :=
  ⟨by decide,
    ⟨by decide, (no_data_unconditional_delete demo appending plain_node plain_way plain_rel (by decide)).1 (by decide)⟩,
    ⟨by decide, (no_data_unconditional_delete demo appending plain_node plain_way plain_rel (by decide)).2.1 (by decide)⟩,
    ⟨by decide, (no_data_unconditional_delete demo appending plain_node plain_way plain_rel (by decide)).2.2 (by decide)⟩⟩

/-- C5: when the entity has a verdict and its geometry is resolved, the add/modify
handler of that entity queues, in append mode, exactly one class-exclusion delete
`delete_object(c, id, class_list)` followed by the row materialization, and in fresh
mode the row materialization alone; `c` is N, W or R and `id` is the id of the entity.
The copy manager calls are the same with `prepare` in front of the delete. Stated for
nodes, ways and relations separately, each under its own condition only. -/
theorem verdict_geometry_delete_then_insert (E : Collaborators σ) (g : output_gazetteer_t σ)
    (node : Node) (way : Way) (rel : Relation) (type : String) :
    ((E.has_data (E.process_tags g.m_style (OSMObject.node node)) = true) →
    ((node_add E g node).map (fun s => (copy_mgr_calls s.log, queued_ops s.log)) =
      some (copy_mgr_calls g.log ++
          ((if g.append = true then
              [Call.prepare, Call.delete_object_classes 'N' node.id (E.class_list (E.process_tags g.m_style (OSMObject.node node)))]
            else []) ++ [Call.copy_out (OSMObject.node node) (E.get_wkb_node node.location)]),
        queued_ops g.log ++
          ((if g.append = true then
              [Call.delete_object_classes 'N' node.id (E.class_list (E.process_tags g.m_style (OSMObject.node node)))]
            else []) ++ [Call.copy_out (OSMObject.node node) (E.get_wkb_node node.location)]))) ∧
    ((node_modify E g node).map (fun s => (copy_mgr_calls s.log, queued_ops s.log)) =
      some (copy_mgr_calls g.log ++
          ((if g.append = true then
              [Call.prepare, Call.delete_object_classes 'N' node.id (E.class_list (E.process_tags g.m_style (OSMObject.node node)))]
            else []) ++ [Call.copy_out (OSMObject.node node) (E.get_wkb_node node.location)]),
        queued_ops g.log ++
          ((if g.append = true then
              [Call.delete_object_classes 'N' node.id (E.class_list (E.process_tags g.m_style (OSMObject.node node)))]
            else []) ++ [Call.copy_out (OSMObject.node node) (E.get_wkb_node node.location)])))) ∧
    ((E.has_data (E.process_tags g.m_style (OSMObject.way way)) = true) →
      (((resolve_nodes E way).is_closed = true ∧
        E.get_wkb_polygon (resolve_nodes E way) ≠ "") ∨
      E.get_wkb_line (resolve_nodes E way).nodes 0 ≠ []) →
    (∃ geom, (way_add E g way).map (fun s => (copy_mgr_calls s.log, queued_ops s.log)) =
      some (copy_mgr_calls g.log ++
          ((if g.append = true then
              [Call.prepare, Call.delete_object_classes 'W' way.id (E.class_list (E.process_tags g.m_style (OSMObject.way way)))]
            else []) ++ [Call.copy_out (OSMObject.way (resolve_nodes E way)) geom]),
        queued_ops g.log ++
          ((if g.append = true then
              [Call.delete_object_classes 'W' way.id (E.class_list (E.process_tags g.m_style (OSMObject.way way)))]
            else []) ++ [Call.copy_out (OSMObject.way (resolve_nodes E way)) geom]))) ∧
    (∃ geom, (way_modify E g way).map (fun s => (copy_mgr_calls s.log, queued_ops s.log)) =
      some (copy_mgr_calls g.log ++
          ((if g.append = true then
              [Call.prepare, Call.delete_object_classes 'W' way.id (E.class_list (E.process_tags g.m_style (OSMObject.way way)))]
            else []) ++ [Call.copy_out (OSMObject.way (resolve_nodes E way)) geom]),
        queued_ops g.log ++
          ((if g.append = true then
              [Call.delete_object_classes 'W' way.id (E.class_list (E.process_tags g.m_style (OSMObject.way way)))]
            else []) ++ [Call.copy_out (OSMObject.way (resolve_nodes E way)) geom])))) ∧
    ((TagList.get_value_by_key rel.tags "type" = some type) →
      (relation_type_rejected type = false) →
      (E.has_data (E.process_tags g.m_style (OSMObject.relation rel)) = true) →
      ((E.rel_way_members_get rel).1 ≠ 0) →
      ((if type = "waterway" then E.get_wkb_multiline ((E.rel_way_members_get rel).2.map (resolve_nodes E)) 0
        else E.get_wkb_multipolygon rel ((E.rel_way_members_get rel).2.map (resolve_nodes E)) true) ≠ []) →
    (∃ geom, (relation_add E g rel).map (fun s => (copy_mgr_calls s.log, queued_ops s.log)) =
      some (copy_mgr_calls g.log ++
          ((if g.append = true then
              [Call.prepare, Call.delete_object_classes 'R' rel.id (E.class_list (E.process_tags g.m_style (OSMObject.relation rel)))]
            else []) ++ [Call.copy_out (OSMObject.relation rel) geom]),
        queued_ops g.log ++
          ((if g.append = true then
              [Call.delete_object_classes 'R' rel.id (E.class_list (E.process_tags g.m_style (OSMObject.relation rel)))]
            else []) ++ [Call.copy_out (OSMObject.relation rel) geom]))) ∧
    (∃ geom, (relation_modify E g rel).map (fun s => (copy_mgr_calls s.log, queued_ops s.log)) =
      some (copy_mgr_calls g.log ++
          ((if g.append = true then
              [Call.prepare, Call.delete_object_classes 'R' rel.id (E.class_list (E.process_tags g.m_style (OSMObject.relation rel)))]
            else []) ++ [Call.copy_out (OSMObject.relation rel) geom]),
        queued_ops g.log ++
          ((if g.append = true then
              [Call.delete_object_classes 'R' rel.id (E.class_list (E.process_tags g.m_style (OSMObject.relation rel)))]
            else []) ++ [Call.copy_out (OSMObject.relation rel) geom])))) := by
  by_cases hap : g.append = true
  all_goals
    refine ⟨?_, ?_, ?_⟩
    · intro hnode
      refine ⟨?_, ?_⟩
      · unfold node_add
        rw [process_node_eq]
        simp_all [unless_processed, delete_unused_full, call, copy_mgr_calls, queued_ops, Call.on_copy_mgr, Call.queues_op,
              filter_nodes_get_list]
      · unfold node_modify
        rw [process_node_eq]
        simp_all [unless_processed, delete_unused_full, call, copy_mgr_calls, queued_ops, Call.on_copy_mgr, Call.queues_op,
              filter_nodes_get_list]
    · intro hway hwgeom
      refine ⟨?_, ?_⟩
      · unfold way_add process_way
        by_cases hd : E.has_data (E.process_tags g.m_style (OSMObject.way way)) = true
        · by_cases hc : (resolve_nodes E way).is_closed = true <;>
            by_cases hp : E.get_wkb_polygon (resolve_nodes E way) = "" <;>
            cases hl : E.get_wkb_line (resolve_nodes E way).nodes 0 <;>
            simp_all [delete_and_copy_out_eq, style_process_tags, call, unless_processed,
              delete_unused_full, resolve_nodes_id, copy_mgr_calls, queued_ops, Call.on_copy_mgr, Call.queues_op,
              filter_nodes_get_list]
        · simp_all [style_process_tags, call, unless_processed, delete_unused_full, copy_mgr_calls, queued_ops, Call.on_copy_mgr, Call.queues_op,
              filter_nodes_get_list]
      · unfold way_modify process_way
        by_cases hd : E.has_data (E.process_tags g.m_style (OSMObject.way way)) = true
        · by_cases hc : (resolve_nodes E way).is_closed = true <;>
            by_cases hp : E.get_wkb_polygon (resolve_nodes E way) = "" <;>
            cases hl : E.get_wkb_line (resolve_nodes E way).nodes 0 <;>
            simp_all [delete_and_copy_out_eq, style_process_tags, call, unless_processed,
              delete_unused_full, resolve_nodes_id, copy_mgr_calls, queued_ops, Call.on_copy_mgr, Call.queues_op,
              filter_nodes_get_list]
        · simp_all [style_process_tags, call, unless_processed, delete_unused_full, copy_mgr_calls, queued_ops, Call.on_copy_mgr, Call.queues_op,
              filter_nodes_get_list]
    · intro htype helig hrel hways hrgeom
      refine ⟨?_, ?_⟩
      · unfold relation_add process_relation
        cases ht : TagList.get_value_by_key rel.tags "type" with
        | none => simp_all [unless_processed, delete_unused_full, call, copy_mgr_calls, queued_ops, Call.on_copy_mgr, Call.queues_op,
              filter_nodes_get_list]
        | some type0 =>
          by_cases hr : relation_type_rejected type0 = true
          · simp_all [unless_processed, delete_unused_full, call, copy_mgr_calls, queued_ops, Call.on_copy_mgr, Call.queues_op,
              filter_nodes_get_list]
          · by_cases hd : E.has_data (E.process_tags g.m_style (OSMObject.relation rel)) = true
            · by_cases hn : (E.rel_way_members_get rel).1 = 0
              · simp_all [style_process_tags, call, unless_processed, delete_unused_full, copy_mgr_calls, queued_ops, Call.on_copy_mgr, Call.queues_op,
              filter_nodes_get_list]
              · by_cases hw : type0 = "waterway"
                · subst hw
                  cases hg : E.get_wkb_multiline
                      ((E.rel_way_members_get rel).2.map (resolve_nodes E)) 0 <;>
                    simp_all [delete_and_copy_out_eq, style_process_tags, call,
                      unless_processed, delete_unused_full, copy_mgr_calls, queued_ops, Call.on_copy_mgr, Call.queues_op,
              filter_nodes_get_list]
                · cases hg : E.get_wkb_multipolygon rel
                      ((E.rel_way_members_get rel).2.map (resolve_nodes E)) true <;>
                    simp_all [delete_and_copy_out_eq, style_process_tags, call,
                      unless_processed, delete_unused_full, copy_mgr_calls, queued_ops, Call.on_copy_mgr, Call.queues_op,
              filter_nodes_get_list]
            · simp_all [style_process_tags, call, unless_processed, delete_unused_full, copy_mgr_calls, queued_ops, Call.on_copy_mgr, Call.queues_op,
              filter_nodes_get_list]
      · unfold relation_modify process_relation
        cases ht : TagList.get_value_by_key rel.tags "type" with
        | none => simp_all [unless_processed, delete_unused_full, call, copy_mgr_calls, queued_ops, Call.on_copy_mgr, Call.queues_op,
              filter_nodes_get_list]
        | some type0 =>
          by_cases hr : relation_type_rejected type0 = true
          · simp_all [unless_processed, delete_unused_full, call, copy_mgr_calls, queued_ops, Call.on_copy_mgr, Call.queues_op,
              filter_nodes_get_list]
          · by_cases hd : E.has_data (E.process_tags g.m_style (OSMObject.relation rel)) = true
            · by_cases hn : (E.rel_way_members_get rel).1 = 0
              · simp_all [style_process_tags, call, unless_processed, delete_unused_full, copy_mgr_calls, queued_ops, Call.on_copy_mgr, Call.queues_op,
              filter_nodes_get_list]
              · by_cases hw : type0 = "waterway"
                · subst hw
                  cases hg : E.get_wkb_multiline
                      ((E.rel_way_members_get rel).2.map (resolve_nodes E)) 0 <;>
                    simp_all [delete_and_copy_out_eq, style_process_tags, call,
                      unless_processed, delete_unused_full, copy_mgr_calls, queued_ops, Call.on_copy_mgr, Call.queues_op,
              filter_nodes_get_list]
                · cases hg : E.get_wkb_multipolygon rel
                      ((E.rel_way_members_get rel).2.map (resolve_nodes E)) true <;>
                    simp_all [delete_and_copy_out_eq, style_process_tags, call,
                      unless_processed, delete_unused_full, copy_mgr_calls, queued_ops, Call.on_copy_mgr, Call.queues_op,
              filter_nodes_get_list]
            · simp_all [style_process_tags, call, unless_processed, delete_unused_full, copy_mgr_calls, queued_ops, Call.on_copy_mgr, Call.queues_op,
              filter_nodes_get_list]

/-- Witness for `verdict_geometry_delete_then_insert`: a place node, a place way and a
place multipolygon relation in append mode, and the place node in fresh mode. -/
theorem verdict_geometry_delete_then_insert_witness :
    ((demo.has_data (demo.process_tags appending.m_style (OSMObject.node place_node)) = true) ∧
    ((node_add demo appending place_node).map (fun s => (copy_mgr_calls s.log, queued_ops s.log)) =
      some (copy_mgr_calls appending.log ++
          ((if appending.append = true then
              [Call.prepare, Call.delete_object_classes 'N' place_node.id (demo.class_list (demo.process_tags appending.m_style (OSMObject.node place_node)))]
            else []) ++ [Call.copy_out (OSMObject.node place_node) (demo.get_wkb_node place_node.location)]),
        queued_ops appending.log ++
          ((if appending.append = true then
              [Call.delete_object_classes 'N' place_node.id (demo.class_list (demo.process_tags appending.m_style (OSMObject.node place_node)))]
            else []) ++ [Call.copy_out (OSMObject.node place_node) (demo.get_wkb_node place_node.location)]))) ∧
    ((node_modify demo appending place_node).map (fun s => (copy_mgr_calls s.log, queued_ops s.log)) =
      some (copy_mgr_calls appending.log ++
          ((if appending.append = true then
              [Call.prepare, Call.delete_object_classes 'N' place_node.id (demo.class_list (demo.process_tags appending.m_style (OSMObject.node place_node)))]
            else []) ++ [Call.copy_out (OSMObject.node place_node) (demo.get_wkb_node place_node.location)]),
        queued_ops appending.log ++
          ((if appending.append = true then
              [Call.delete_object_classes 'N' place_node.id (demo.class_list (demo.process_tags appending.m_style (OSMObject.node place_node)))]
            else []) ++ [Call.copy_out (OSMObject.node place_node) (demo.get_wkb_node place_node.location)])))) ∧
    ((demo.has_data (demo.process_tags appending.m_style (OSMObject.way place_way)) = true) ∧
    (((resolve_nodes demo place_way).is_closed = true ∧
        demo.get_wkb_polygon (resolve_nodes demo place_way) ≠ "") ∨
      demo.get_wkb_line (resolve_nodes demo place_way).nodes 0 ≠ []) ∧
    (∃ geom, (way_add demo appending place_way).map (fun s => (copy_mgr_calls s.log, queued_ops s.log)) =
      some (copy_mgr_calls appending.log ++
          ((if appending.append = true then
              [Call.prepare, Call.delete_object_classes 'W' place_way.id (demo.class_list (demo.process_tags appending.m_style (OSMObject.way place_way)))]
            else []) ++ [Call.copy_out (OSMObject.way (resolve_nodes demo place_way)) geom]),
        queued_ops appending.log ++
          ((if appending.append = true then
              [Call.delete_object_classes 'W' place_way.id (demo.class_list (demo.process_tags appending.m_style (OSMObject.way place_way)))]
            else []) ++ [Call.copy_out (OSMObject.way (resolve_nodes demo place_way)) geom]))) ∧
    (∃ geom, (way_modify demo appending place_way).map (fun s => (copy_mgr_calls s.log, queued_ops s.log)) =
      some (copy_mgr_calls appending.log ++
          ((if appending.append = true then
              [Call.prepare, Call.delete_object_classes 'W' place_way.id (demo.class_list (demo.process_tags appending.m_style (OSMObject.way place_way)))]
            else []) ++ [Call.copy_out (OSMObject.way (resolve_nodes demo place_way)) geom]),
        queued_ops appending.log ++
          ((if appending.append = true then
              [Call.delete_object_classes 'W' place_way.id (demo.class_list (demo.process_tags appending.m_style (OSMObject.way place_way)))]
            else []) ++ [Call.copy_out (OSMObject.way (resolve_nodes demo place_way)) geom])))) ∧
    ((TagList.get_value_by_key multipolygon_rel.tags "type" = some "multipolygon") ∧
    (relation_type_rejected "multipolygon" = false) ∧
    (demo.has_data (demo.process_tags appending.m_style (OSMObject.relation multipolygon_rel)) = true) ∧
    ((demo.rel_way_members_get multipolygon_rel).1 ≠ 0) ∧
    ((if "multipolygon" = "waterway" then demo.get_wkb_multiline ((demo.rel_way_members_get multipolygon_rel).2.map (resolve_nodes demo)) 0
        else demo.get_wkb_multipolygon multipolygon_rel ((demo.rel_way_members_get multipolygon_rel).2.map (resolve_nodes demo)) true) ≠ []) ∧
    (∃ geom, (relation_add demo appending multipolygon_rel).map (fun s => (copy_mgr_calls s.log, queued_ops s.log)) =
      some (copy_mgr_calls appending.log ++
          ((if appending.append = true then
              [Call.prepare, Call.delete_object_classes 'R' multipolygon_rel.id (demo.class_list (demo.process_tags appending.m_style (OSMObject.relation multipolygon_rel)))]
            else []) ++ [Call.copy_out (OSMObject.relation multipolygon_rel) geom]),
        queued_ops appending.log ++
          ((if appending.append = true then
              [Call.delete_object_classes 'R' multipolygon_rel.id (demo.class_list (demo.process_tags appending.m_style (OSMObject.relation multipolygon_rel)))]
            else []) ++ [Call.copy_out (OSMObject.relation multipolygon_rel) geom]))) ∧
    (∃ geom, (relation_modify demo appending multipolygon_rel).map (fun s => (copy_mgr_calls s.log, queued_ops s.log)) =
      some (copy_mgr_calls appending.log ++
          ((if appending.append = true then
              [Call.prepare, Call.delete_object_classes 'R' multipolygon_rel.id (demo.class_list (demo.process_tags appending.m_style (OSMObject.relation multipolygon_rel)))]
            else []) ++ [Call.copy_out (OSMObject.relation multipolygon_rel) geom]),
        queued_ops appending.log ++
          ((if appending.append = true then
              [Call.delete_object_classes 'R' multipolygon_rel.id (demo.class_list (demo.process_tags appending.m_style (OSMObject.relation multipolygon_rel)))]
            else []) ++ [Call.copy_out (OSMObject.relation multipolygon_rel) geom])))) ∧
    ((demo.has_data (demo.process_tags fresh.m_style (OSMObject.node place_node)) = true) ∧
    ((node_add demo fresh place_node).map (fun s => (copy_mgr_calls s.log, queued_ops s.log)) =
      some (copy_mgr_calls fresh.log ++
          ((if fresh.append = true then
              [Call.prepare, Call.delete_object_classes 'N' place_node.id (demo.class_list (demo.process_tags fresh.m_style (OSMObject.node place_node)))]
            else []) ++ [Call.copy_out (OSMObject.node place_node) (demo.get_wkb_node place_node.location)]),
        queued_ops fresh.log ++
          ((if fresh.append = true then
              [Call.delete_object_classes 'N' place_node.id (demo.class_list (demo.process_tags fresh.m_style (OSMObject.node place_node)))]
            else []) ++ [Call.copy_out (OSMObject.node place_node) (demo.get_wkb_node place_node.location)]))) ∧
    ((node_modify demo fresh place_node).map (fun s => (copy_mgr_calls s.log, queued_ops s.log)) =
      some (copy_mgr_calls fresh.log ++
          ((if fresh.append = true then
              [Call.prepare, Call.delete_object_classes 'N' place_node.id (demo.class_list (demo.process_tags fresh.m_style (OSMObject.node place_node)))]
            else []) ++ [Call.copy_out (OSMObject.node place_node) (demo.get_wkb_node place_node.location)]),
        queued_ops fresh.log ++
          ((if fresh.append = true then
              [Call.delete_object_classes 'N' place_node.id (demo.class_list (demo.process_tags fresh.m_style (OSMObject.node place_node)))]
            else []) ++ [Call.copy_out (OSMObject.node place_node) (demo.get_wkb_node place_node.location)])))) :=
  ⟨⟨by decide, (verdict_geometry_delete_then_insert demo appending place_node place_way multipolygon_rel
      "multipolygon").1 (by decide)⟩,
    ⟨by decide, by decide, (verdict_geometry_delete_then_insert demo appending place_node place_way multipolygon_rel
      "multipolygon").2.1 (by decide) (by decide)⟩,
    ⟨by decide, by decide, by decide, by decide, by decide,
      (verdict_geometry_delete_then_insert demo appending place_node place_way multipolygon_rel
      "multipolygon").2.2 (by decide) (by decide) (by decide) (by decide) (by decide)⟩,
    ⟨by decide, (verdict_geometry_delete_then_insert demo fresh place_node place_way multipolygon_rel
      "multipolygon").1 (by decide)⟩⟩

/-- C4 (counterexample): in append mode, a way with a verdict whose polygon build and
line build both yield nothing gets the unconditional delete `delete_object(W, id)`
queued, not the class-exclusion delete. -/
theorem geometry_failure_not_class_delete :
    demo.has_data (demo.process_tags appending.m_style (OSMObject.way single_node_way)) = true ∧
    demo.get_wkb_polygon (resolve_nodes demo single_node_way) = "" ∧
    demo.get_wkb_line (resolve_nodes demo single_node_way).nodes 0 = [] ∧
    (way_add demo appending single_node_way).map (fun s => queued_ops s.log) =
      some [Call.delete_object 'W' 12] ∧
    (way_add demo appending single_node_way).map (fun s => queued_ops s.log) ≠
      some [Call.delete_object_classes 'W' 12 (demo.class_list
        (demo.process_tags appending.m_style (OSMObject.way single_node_way)))] := by
  decide

/-- C4 (amended): in append mode, when geometry resolution fails for a way that has a
verdict, or for an eligible relation that has a verdict, the add/modify handler of
that entity materializes no row and queues exactly one delete for the entity, the
unconditional `delete_object(c, id)`; no class-exclusion delete is queued. Stated for
ways and relations separately, each under its own condition only. -/
theorem geometry_failure_unconditional_delete (E : Collaborators σ)
    (g : output_gazetteer_t σ) (way : Way) (rel : Relation) (type : String)
    (ha : g.append = true) :
    ((E.has_data (E.process_tags g.m_style (OSMObject.way way)) = true) →
      (((resolve_nodes E way).is_closed = false ∨
        E.get_wkb_polygon (resolve_nodes E way) = "") ∧
      E.get_wkb_line (resolve_nodes E way).nodes 0 = []) →
    ((way_add E g way).map (fun s => (copy_mgr_calls s.log, queued_ops s.log)) =
      some (copy_mgr_calls g.log ++ [Call.prepare, Call.delete_object 'W' way.id],
        queued_ops g.log ++ [Call.delete_object 'W' way.id])) ∧
    ((way_modify E g way).map (fun s => (copy_mgr_calls s.log, queued_ops s.log)) =
      some (copy_mgr_calls g.log ++ [Call.prepare, Call.delete_object 'W' way.id],
        queued_ops g.log ++ [Call.delete_object 'W' way.id]))) ∧
    ((TagList.get_value_by_key rel.tags "type" = some type) →
      (relation_type_rejected type = false) →
      (E.has_data (E.process_tags g.m_style (OSMObject.relation rel)) = true) →
      ((E.rel_way_members_get rel).1 = 0 ∨
      (if type = "waterway" then E.get_wkb_multiline ((E.rel_way_members_get rel).2.map (resolve_nodes E)) 0
        else E.get_wkb_multipolygon rel ((E.rel_way_members_get rel).2.map (resolve_nodes E)) true) = []) →
    ((relation_add E g rel).map (fun s => (copy_mgr_calls s.log, queued_ops s.log)) =
      some (copy_mgr_calls g.log ++ [Call.prepare, Call.delete_object 'R' rel.id],
        queued_ops g.log ++ [Call.delete_object 'R' rel.id])) ∧
    ((relation_modify E g rel).map (fun s => (copy_mgr_calls s.log, queued_ops s.log)) =
      some (copy_mgr_calls g.log ++ [Call.prepare, Call.delete_object 'R' rel.id],
        queued_ops g.log ++ [Call.delete_object 'R' rel.id]))) := by
  refine ⟨?_, ?_⟩
  · intro hway hwfail
    refine ⟨?_, ?_⟩
    · unfold way_add process_way
      by_cases hd : E.has_data (E.process_tags g.m_style (OSMObject.way way)) = true
      · by_cases hc : (resolve_nodes E way).is_closed = true <;>
          by_cases hp : E.get_wkb_polygon (resolve_nodes E way) = "" <;>
          cases hl : E.get_wkb_line (resolve_nodes E way).nodes 0 <;>
          simp_all [delete_and_copy_out_eq, style_process_tags, call, unless_processed,
            delete_unused_full, resolve_nodes_id, copy_mgr_calls, queued_ops, Call.on_copy_mgr, Call.queues_op,
            filter_nodes_get_list]
      · simp_all [style_process_tags, call, unless_processed, delete_unused_full, copy_mgr_calls, queued_ops, Call.on_copy_mgr, Call.queues_op,
            filter_nodes_get_list]
    · unfold way_modify process_way
      by_cases hd : E.has_data (E.process_tags g.m_style (OSMObject.way way)) = true
      · by_cases hc : (resolve_nodes E way).is_closed = true <;>
          by_cases hp : E.get_wkb_polygon (resolve_nodes E way) = "" <;>
          cases hl : E.get_wkb_line (resolve_nodes E way).nodes 0 <;>
          simp_all [delete_and_copy_out_eq, style_process_tags, call, unless_processed,
            delete_unused_full, resolve_nodes_id, copy_mgr_calls, queued_ops, Call.on_copy_mgr, Call.queues_op,
            filter_nodes_get_list]
      · simp_all [style_process_tags, call, unless_processed, delete_unused_full, copy_mgr_calls, queued_ops, Call.on_copy_mgr, Call.queues_op,
            filter_nodes_get_list]
  · intro htype helig hrel hrfail
    refine ⟨?_, ?_⟩
    · unfold relation_add process_relation
      cases ht : TagList.get_value_by_key rel.tags "type" with
      | none => simp_all [unless_processed, delete_unused_full, call, copy_mgr_calls, queued_ops, Call.on_copy_mgr, Call.queues_op,
            filter_nodes_get_list]
      | some type0 =>
        by_cases hr : relation_type_rejected type0 = true
        · simp_all [unless_processed, delete_unused_full, call, copy_mgr_calls, queued_ops, Call.on_copy_mgr, Call.queues_op,
            filter_nodes_get_list]
        · by_cases hd : E.has_data (E.process_tags g.m_style (OSMObject.relation rel)) = true
          · by_cases hn : (E.rel_way_members_get rel).1 = 0
            · simp_all [style_process_tags, call, unless_processed, delete_unused_full, copy_mgr_calls, queued_ops, Call.on_copy_mgr, Call.queues_op,
            filter_nodes_get_list]
            · by_cases hw : type0 = "waterway"
              · subst hw
                cases hg : E.get_wkb_multiline
                    ((E.rel_way_members_get rel).2.map (resolve_nodes E)) 0 <;>
                  simp_all [delete_and_copy_out_eq, style_process_tags, call,
                    unless_processed, delete_unused_full, copy_mgr_calls, queued_ops, Call.on_copy_mgr, Call.queues_op,
            filter_nodes_get_list]
              · cases hg : E.get_wkb_multipolygon rel
                    ((E.rel_way_members_get rel).2.map (resolve_nodes E)) true <;>
                  simp_all [delete_and_copy_out_eq, style_process_tags, call,
                    unless_processed, delete_unused_full, copy_mgr_calls, queued_ops, Call.on_copy_mgr, Call.queues_op,
            filter_nodes_get_list]
          · simp_all [style_process_tags, call, unless_processed, delete_unused_full, copy_mgr_calls, queued_ops, Call.on_copy_mgr, Call.queues_op,
            filter_nodes_get_list]
    · unfold relation_modify process_relation
      cases ht : TagList.get_value_by_key rel.tags "type" with
      | none => simp_all [unless_processed, delete_unused_full, call, copy_mgr_calls, queued_ops, Call.on_copy_mgr, Call.queues_op,
            filter_nodes_get_list]
      | some type0 =>
        by_cases hr : relation_type_rejected type0 = true
        · simp_all [unless_processed, delete_unused_full, call, copy_mgr_calls, queued_ops, Call.on_copy_mgr, Call.queues_op,
            filter_nodes_get_list]
        · by_cases hd : E.has_data (E.process_tags g.m_style (OSMObject.relation rel)) = true
          · by_cases hn : (E.rel_way_members_get rel).1 = 0
            · simp_all [style_process_tags, call, unless_processed, delete_unused_full, copy_mgr_calls, queued_ops, Call.on_copy_mgr, Call.queues_op,
            filter_nodes_get_list]
            · by_cases hw : type0 = "waterway"
              · subst hw
                cases hg : E.get_wkb_multiline
                    ((E.rel_way_members_get rel).2.map (resolve_nodes E)) 0 <;>
                  simp_all [delete_and_copy_out_eq, style_process_tags, call,
                    unless_processed, delete_unused_full, copy_mgr_calls, queued_ops, Call.on_copy_mgr, Call.queues_op,
            filter_nodes_get_list]
              · cases hg : E.get_wkb_multipolygon rel
                    ((E.rel_way_members_get rel).2.map (resolve_nodes E)) true <;>
                  simp_all [delete_and_copy_out_eq, style_process_tags, call,
                    unless_processed, delete_unused_full, copy_mgr_calls, queued_ops, Call.on_copy_mgr, Call.queues_op,
            filter_nodes_get_list]
          · simp_all [style_process_tags, call, unless_processed, delete_unused_full, copy_mgr_calls, queued_ops, Call.on_copy_mgr, Call.queues_op,
            filter_nodes_get_list]

/-- Witness for `geometry_failure_unconditional_delete`: a single-node way and a
multipolygon relation without member ways. -/
theorem geometry_failure_unconditional_delete_witness :
    (appending.append = true) ∧
    ((demo.has_data (demo.process_tags appending.m_style (OSMObject.way single_node_way)) = true) ∧
    (((resolve_nodes demo single_node_way).is_closed = false ∨
        demo.get_wkb_polygon (resolve_nodes demo single_node_way) = "") ∧
      demo.get_wkb_line (resolve_nodes demo single_node_way).nodes 0 = []) ∧
    ((way_add demo appending single_node_way).map (fun s => (copy_mgr_calls s.log, queued_ops s.log)) =
      some (copy_mgr_calls appending.log ++ [Call.prepare, Call.delete_object 'W' single_node_way.id],
        queued_ops appending.log ++ [Call.delete_object 'W' single_node_way.id])) ∧
    ((way_modify demo appending single_node_way).map (fun s => (copy_mgr_calls s.log, queued_ops s.log)) =
      some (copy_mgr_calls appending.log ++ [Call.prepare, Call.delete_object 'W' single_node_way.id],
        queued_ops appending.log ++ [Call.delete_object 'W' single_node_way.id]))) ∧
    ((TagList.get_value_by_key memberless_rel.tags "type" = some "multipolygon") ∧
    (relation_type_rejected "multipolygon" = false) ∧
    (demo.has_data (demo.process_tags appending.m_style (OSMObject.relation memberless_rel)) = true) ∧
    ((demo.rel_way_members_get memberless_rel).1 = 0 ∨
      (if "multipolygon" = "waterway" then demo.get_wkb_multiline ((demo.rel_way_members_get memberless_rel).2.map (resolve_nodes demo)) 0
        else demo.get_wkb_multipolygon memberless_rel ((demo.rel_way_members_get memberless_rel).2.map (resolve_nodes demo)) true) = []) ∧
    ((relation_add demo appending memberless_rel).map (fun s => (copy_mgr_calls s.log, queued_ops s.log)) =
      some (copy_mgr_calls appending.log ++ [Call.prepare, Call.delete_object 'R' memberless_rel.id],
        queued_ops appending.log ++ [Call.delete_object 'R' memberless_rel.id])) ∧
    ((relation_modify demo appending memberless_rel).map (fun s => (copy_mgr_calls s.log, queued_ops s.log)) =
      some (copy_mgr_calls appending.log ++ [Call.prepare, Call.delete_object 'R' memberless_rel.id],
        queued_ops appending.log ++ [Call.delete_object 'R' memberless_rel.id]))) :=
  ⟨by decide,
    ⟨by decide, by decide, (geometry_failure_unconditional_delete demo appending single_node_way memberless_rel
      "multipolygon" (by decide)).1 (by decide) (by decide)⟩,
    ⟨by decide, by decide, by decide, by decide,
      (geometry_failure_unconditional_delete demo appending single_node_way memberless_rel
      "multipolygon" (by decide)).2 (by decide) (by decide) (by decide) (by decide)⟩⟩

/-- C8: for a way with a verdict, `process_way` calls the polygon builder exactly when
the way is closed; with a closed way and a non-empty polygon the row carries that
polygon and the line builder is not called; otherwise the line builder is called on
the nodes of the way with second argument 0 and the row carries its first result;
and `process_way` returns false, with no row, exactly when the polygon is absent or
empty and the line builder returns nothing. -/
theorem process_way_geometry_choice (E : Collaborators σ) (g : output_gazetteer_t σ)
    (way : Way)
    (hway : E.has_data (E.process_tags g.m_style (OSMObject.way way)) = true) :
    (process_way E g way).map (fun r => builder_calls r.2.log) =
      some (builder_calls g.log ++
        ((if (resolve_nodes E way).is_closed = true then [Call.get_wkb_polygon (resolve_nodes E way)] else []) ++
          (if (resolve_nodes E way).is_closed = true ∧ E.get_wkb_polygon (resolve_nodes E way) ≠ "" then []
            else [Call.get_wkb_line (resolve_nodes E way).nodes 0]))) ∧
    (process_way E g way).map (fun r => (r.1, materializations r.2.log)) =
      some (if (resolve_nodes E way).is_closed = true ∧ E.get_wkb_polygon (resolve_nodes E way) ≠ "" then
          (true, materializations g.log ++
            [Call.copy_out (OSMObject.way (resolve_nodes E way)) (E.get_wkb_polygon (resolve_nodes E way))])
        else
          match E.get_wkb_line (resolve_nodes E way).nodes 0 with
          | [] => (false, materializations g.log)
          | wkb0 :: _ => (true, materializations g.log ++
              [Call.copy_out (OSMObject.way (resolve_nodes E way)) wkb0])) ∧
    ((process_way E g way).map Prod.fst = some false ↔
      ((resolve_nodes E way).is_closed = false ∨ E.get_wkb_polygon (resolve_nodes E way) = "") ∧
        E.get_wkb_line (resolve_nodes E way).nodes 0 = []) := by
  by_cases hap : g.append = true
  all_goals
    refine ⟨?_, ?_, ?_⟩
    · unfold process_way
      by_cases hd : E.has_data (E.process_tags g.m_style (OSMObject.way way)) = true
      · by_cases hc : (resolve_nodes E way).is_closed = true <;>
          by_cases hp : E.get_wkb_polygon (resolve_nodes E way) = "" <;>
          cases hl : E.get_wkb_line (resolve_nodes E way).nodes 0 <;>
          simp_all [delete_and_copy_out_eq, style_process_tags, call, unless_processed,
            delete_unused_full, resolve_nodes_id, builder_calls, materializations, Call.on_builder, Call.is_copy_out,
            filter_nodes_get_list]
      · simp_all [style_process_tags, call, unless_processed, delete_unused_full, builder_calls, materializations, Call.on_builder, Call.is_copy_out,
            filter_nodes_get_list]
    · unfold process_way
      by_cases hd : E.has_data (E.process_tags g.m_style (OSMObject.way way)) = true
      · by_cases hc : (resolve_nodes E way).is_closed = true <;>
          by_cases hp : E.get_wkb_polygon (resolve_nodes E way) = "" <;>
          cases hl : E.get_wkb_line (resolve_nodes E way).nodes 0 <;>
          simp_all [delete_and_copy_out_eq, style_process_tags, call, unless_processed,
            delete_unused_full, resolve_nodes_id, builder_calls, materializations, Call.on_builder, Call.is_copy_out,
            filter_nodes_get_list]
      · simp_all [style_process_tags, call, unless_processed, delete_unused_full, builder_calls, materializations, Call.on_builder, Call.is_copy_out,
            filter_nodes_get_list]
    · unfold process_way
      by_cases hd : E.has_data (E.process_tags g.m_style (OSMObject.way way)) = true
      · by_cases hc : (resolve_nodes E way).is_closed = true <;>
          by_cases hp : E.get_wkb_polygon (resolve_nodes E way) = "" <;>
          cases hl : E.get_wkb_line (resolve_nodes E way).nodes 0 <;>
          simp_all [delete_and_copy_out_eq, style_process_tags, call, unless_processed,
            delete_unused_full, resolve_nodes_id, builder_calls, materializations, Call.on_builder, Call.is_copy_out,
            filter_nodes_get_list]
      · simp_all [style_process_tags, call, unless_processed, delete_unused_full, builder_calls, materializations, Call.on_builder, Call.is_copy_out,
            filter_nodes_get_list]

/-- Witness for `process_way_geometry_choice`: a closed degenerate ring, for which the
polygon is empty and the line build succeeds. -/
theorem process_way_geometry_choice_witness :
    (demo.has_data (demo.process_tags appending.m_style (OSMObject.way degenerate_ring)) = true) ∧
    ((process_way demo appending degenerate_ring).map (fun r => builder_calls r.2.log) =
      some (builder_calls appending.log ++
        ((if (resolve_nodes demo degenerate_ring).is_closed = true then [Call.get_wkb_polygon (resolve_nodes demo degenerate_ring)] else []) ++
          (if (resolve_nodes demo degenerate_ring).is_closed = true ∧ demo.get_wkb_polygon (resolve_nodes demo degenerate_ring) ≠ "" then []
            else [Call.get_wkb_line (resolve_nodes demo degenerate_ring).nodes 0]))) ∧
    (process_way demo appending degenerate_ring).map (fun r => (r.1, materializations r.2.log)) =
      some (if (resolve_nodes demo degenerate_ring).is_closed = true ∧ demo.get_wkb_polygon (resolve_nodes demo degenerate_ring) ≠ "" then
          (true, materializations appending.log ++
            [Call.copy_out (OSMObject.way (resolve_nodes demo degenerate_ring)) (demo.get_wkb_polygon (resolve_nodes demo degenerate_ring))])
        else
          match demo.get_wkb_line (resolve_nodes demo degenerate_ring).nodes 0 with
          | [] => (false, materializations appending.log)
          | wkb0 :: _ => (true, materializations appending.log ++
              [Call.copy_out (OSMObject.way (resolve_nodes demo degenerate_ring)) wkb0])) ∧
    ((process_way demo appending degenerate_ring).map Prod.fst = some false ↔
      ((resolve_nodes demo degenerate_ring).is_closed = false ∨ demo.get_wkb_polygon (resolve_nodes demo degenerate_ring) = "") ∧
        demo.get_wkb_line (resolve_nodes demo degenerate_ring).nodes 0 = [])) :=
  ⟨by decide, process_way_geometry_choice demo appending degenerate_ring (by decide)⟩

/-- C9 (counterexample): an eligible multipolygon relation with a verdict for which
the middle storage reports no member way: `process_relation` fails without calling
any geometry builder, so no multipolygon is built. -/
theorem memberless_relation_builds_nothing :
    TagList.get_value_by_key memberless_rel.tags "type" = some "multipolygon" ∧
    relation_type_rejected "multipolygon" = false ∧
    demo.has_data
      (demo.process_tags appending.m_style (OSMObject.relation memberless_rel)) = true ∧
    (process_relation demo appending memberless_rel).map
      (fun r => (r.1, builder_calls r.2.log)) = some (false, []) := by
  decide

/-- C9 (amended): for an eligible relation with a verdict, when the middle storage
reports a non-zero number of member ways, `process_relation` makes exactly one
builder call: the multi-line build `get_wkb_multiline(ways, 0.0)` when the type tag is
waterway, and otherwise the multipolygon build `get_wkb_multipolygon(rel, ways, true)`;
it returns false with no row when the returned collection is empty, and otherwise
materializes exactly one row, carrying the first geometry of the collection. When the
middle storage reports zero member ways, it returns false with no row and without
any builder call. -/
theorem process_relation_geometry_choice (E : Collaborators σ) (g : output_gazetteer_t σ)
    (rel : Relation) (type : String)
    (htype : TagList.get_value_by_key rel.tags "type" = some type)
    (helig : relation_type_rejected type = false)
    (hrel : E.has_data (E.process_tags g.m_style (OSMObject.relation rel)) = true) :
    ((E.rel_way_members_get rel).1 ≠ 0 →
    (process_relation E g rel).map (fun r => builder_calls r.2.log) =
      some (builder_calls g.log ++
        [if type = "waterway" then Call.get_wkb_multiline ((E.rel_way_members_get rel).2.map (resolve_nodes E)) 0
          else Call.get_wkb_multipolygon rel ((E.rel_way_members_get rel).2.map (resolve_nodes E)) true]) ∧
    (process_relation E g rel).map (fun r => (r.1, materializations r.2.log)) =
      some (match (if type = "waterway" then E.get_wkb_multiline ((E.rel_way_members_get rel).2.map (resolve_nodes E)) 0
        else E.get_wkb_multipolygon rel ((E.rel_way_members_get rel).2.map (resolve_nodes E)) true) with
        | [] => (false, materializations g.log)
        | geom0 :: _ => (true, materializations g.log ++
            [Call.copy_out (OSMObject.relation rel) geom0]))) ∧
    ((E.rel_way_members_get rel).1 = 0 →
    (process_relation E g rel).map
        (fun r => (r.1, builder_calls r.2.log, materializations r.2.log)) =
      some (false, builder_calls g.log, materializations g.log)) := by
  by_cases hap : g.append = true
  all_goals
    refine ⟨?_, ?_⟩
    · intro hways
      refine ⟨?_, ?_⟩
      · unfold process_relation
        cases ht : TagList.get_value_by_key rel.tags "type" with
        | none => simp_all [unless_processed, delete_unused_full, call, builder_calls, materializations, Call.on_builder, Call.is_copy_out,
              filter_nodes_get_list]
        | some type0 =>
          by_cases hr : relation_type_rejected type0 = true
          · simp_all [unless_processed, delete_unused_full, call, builder_calls, materializations, Call.on_builder, Call.is_copy_out,
              filter_nodes_get_list]
          · by_cases hd : E.has_data (E.process_tags g.m_style (OSMObject.relation rel)) = true
            · by_cases hn : (E.rel_way_members_get rel).1 = 0
              · simp_all [style_process_tags, call, unless_processed, delete_unused_full, builder_calls, materializations, Call.on_builder, Call.is_copy_out,
              filter_nodes_get_list]
              · by_cases hw : type0 = "waterway"
                · subst hw
                  cases hg : E.get_wkb_multiline
                      ((E.rel_way_members_get rel).2.map (resolve_nodes E)) 0 <;>
                    simp_all [delete_and_copy_out_eq, style_process_tags, call,
                      unless_processed, delete_unused_full, builder_calls, materializations, Call.on_builder, Call.is_copy_out,
              filter_nodes_get_list]
                · cases hg : E.get_wkb_multipolygon rel
                      ((E.rel_way_members_get rel).2.map (resolve_nodes E)) true <;>
                    simp_all [delete_and_copy_out_eq, style_process_tags, call,
                      unless_processed, delete_unused_full, builder_calls, materializations, Call.on_builder, Call.is_copy_out,
              filter_nodes_get_list]
            · simp_all [style_process_tags, call, unless_processed, delete_unused_full, builder_calls, materializations, Call.on_builder, Call.is_copy_out,
              filter_nodes_get_list]
      · unfold process_relation
        cases ht : TagList.get_value_by_key rel.tags "type" with
        | none => simp_all [unless_processed, delete_unused_full, call, builder_calls, materializations, Call.on_builder, Call.is_copy_out,
              filter_nodes_get_list]
        | some type0 =>
          by_cases hr : relation_type_rejected type0 = true
          · simp_all [unless_processed, delete_unused_full, call, builder_calls, materializations, Call.on_builder, Call.is_copy_out,
              filter_nodes_get_list]
          · by_cases hd : E.has_data (E.process_tags g.m_style (OSMObject.relation rel)) = true
            · by_cases hn : (E.rel_way_members_get rel).1 = 0
              · simp_all [style_process_tags, call, unless_processed, delete_unused_full, builder_calls, materializations, Call.on_builder, Call.is_copy_out,
              filter_nodes_get_list]
              · by_cases hw : type0 = "waterway"
                · subst hw
                  cases hg : E.get_wkb_multiline
                      ((E.rel_way_members_get rel).2.map (resolve_nodes E)) 0 <;>
                    simp_all [delete_and_copy_out_eq, style_process_tags, call,
                      unless_processed, delete_unused_full, builder_calls, materializations, Call.on_builder, Call.is_copy_out,
              filter_nodes_get_list]
                · cases hg : E.get_wkb_multipolygon rel
                      ((E.rel_way_members_get rel).2.map (resolve_nodes E)) true <;>
                    simp_all [delete_and_copy_out_eq, style_process_tags, call,
                      unless_processed, delete_unused_full, builder_calls, materializations, Call.on_builder, Call.is_copy_out,
              filter_nodes_get_list]
            · simp_all [style_process_tags, call, unless_processed, delete_unused_full, builder_calls, materializations, Call.on_builder, Call.is_copy_out,
              filter_nodes_get_list]
    · intro hzero
      unfold process_relation
      cases ht : TagList.get_value_by_key rel.tags "type" with
      | none => simp_all [unless_processed, delete_unused_full, call, builder_calls, materializations, Call.on_builder, Call.is_copy_out,
            filter_nodes_get_list]
      | some type0 =>
        by_cases hr : relation_type_rejected type0 = true
        · simp_all [unless_processed, delete_unused_full, call, builder_calls, materializations, Call.on_builder, Call.is_copy_out,
            filter_nodes_get_list]
        · by_cases hd : E.has_data (E.process_tags g.m_style (OSMObject.relation rel)) = true
          · by_cases hn : (E.rel_way_members_get rel).1 = 0
            · simp_all [style_process_tags, call, unless_processed, delete_unused_full, builder_calls, materializations, Call.on_builder, Call.is_copy_out,
            filter_nodes_get_list]
            · by_cases hw : type0 = "waterway"
              · subst hw
                cases hg : E.get_wkb_multiline
                    ((E.rel_way_members_get rel).2.map (resolve_nodes E)) 0 <;>
                  simp_all [delete_and_copy_out_eq, style_process_tags, call,
                    unless_processed, delete_unused_full, builder_calls, materializations, Call.on_builder, Call.is_copy_out,
            filter_nodes_get_list]
              · cases hg : E.get_wkb_multipolygon rel
                    ((E.rel_way_members_get rel).2.map (resolve_nodes E)) true <;>
                  simp_all [delete_and_copy_out_eq, style_process_tags, call,
                    unless_processed, delete_unused_full, builder_calls, materializations, Call.on_builder, Call.is_copy_out,
            filter_nodes_get_list]
          · simp_all [style_process_tags, call, unless_processed, delete_unused_full, builder_calls, materializations, Call.on_builder, Call.is_copy_out,
            filter_nodes_get_list]

/-- Witness for `process_relation_geometry_choice`: a waterway relation and a
multipolygon relation with one member way each, and a multipolygon relation without
member ways. -/
theorem process_relation_geometry_choice_witness :
    ((TagList.get_value_by_key waterway_rel.tags "type" = some "waterway") ∧
    (relation_type_rejected "waterway" = false) ∧
    (demo.has_data (demo.process_tags fresh.m_style (OSMObject.relation waterway_rel)) = true) ∧
    ((demo.rel_way_members_get waterway_rel).1 ≠ 0) ∧
    ((process_relation demo fresh waterway_rel).map (fun r => builder_calls r.2.log) =
      some (builder_calls fresh.log ++
        [if "waterway" = "waterway" then Call.get_wkb_multiline ((demo.rel_way_members_get waterway_rel).2.map (resolve_nodes demo)) 0
          else Call.get_wkb_multipolygon waterway_rel ((demo.rel_way_members_get waterway_rel).2.map (resolve_nodes demo)) true]) ∧
    (process_relation demo fresh waterway_rel).map (fun r => (r.1, materializations r.2.log)) =
      some (match (if "waterway" = "waterway" then demo.get_wkb_multiline ((demo.rel_way_members_get waterway_rel).2.map (resolve_nodes demo)) 0
        else demo.get_wkb_multipolygon waterway_rel ((demo.rel_way_members_get waterway_rel).2.map (resolve_nodes demo)) true) with
        | [] => (false, materializations fresh.log)
        | geom0 :: _ => (true, materializations fresh.log ++
            [Call.copy_out (OSMObject.relation waterway_rel) geom0])))) ∧
    ((TagList.get_value_by_key multipolygon_rel.tags "type" = some "multipolygon") ∧
    (relation_type_rejected "multipolygon" = false) ∧
    (demo.has_data (demo.process_tags appending.m_style (OSMObject.relation multipolygon_rel)) = true) ∧
    ((demo.rel_way_members_get multipolygon_rel).1 ≠ 0) ∧
    ((process_relation demo appending multipolygon_rel).map (fun r => builder_calls r.2.log) =
      some (builder_calls appending.log ++
        [if "multipolygon" = "waterway" then Call.get_wkb_multiline ((demo.rel_way_members_get multipolygon_rel).2.map (resolve_nodes demo)) 0
          else Call.get_wkb_multipolygon multipolygon_rel ((demo.rel_way_members_get multipolygon_rel).2.map (resolve_nodes demo)) true]) ∧
    (process_relation demo appending multipolygon_rel).map (fun r => (r.1, materializations r.2.log)) =
      some (match (if "multipolygon" = "waterway" then demo.get_wkb_multiline ((demo.rel_way_members_get multipolygon_rel).2.map (resolve_nodes demo)) 0
        else demo.get_wkb_multipolygon multipolygon_rel ((demo.rel_way_members_get multipolygon_rel).2.map (resolve_nodes demo)) true) with
        | [] => (false, materializations appending.log)
        | geom0 :: _ => (true, materializations appending.log ++
            [Call.copy_out (OSMObject.relation multipolygon_rel) geom0])))) ∧
    ((TagList.get_value_by_key memberless_rel.tags "type" = some "multipolygon") ∧
    (relation_type_rejected "multipolygon" = false) ∧
    (demo.has_data (demo.process_tags appending.m_style (OSMObject.relation memberless_rel)) = true) ∧
    ((demo.rel_way_members_get memberless_rel).1 = 0) ∧
    ((process_relation demo appending memberless_rel).map
        (fun r => (r.1, builder_calls r.2.log, materializations r.2.log)) =
      some (false, builder_calls appending.log, materializations appending.log))) :=
  ⟨⟨by decide, by decide, by decide, by decide,
      (process_relation_geometry_choice demo fresh waterway_rel "waterway"
      (by decide) (by decide) (by decide)).1 (by decide)⟩,
    ⟨by decide, by decide, by decide, by decide,
      (process_relation_geometry_choice demo appending multipolygon_rel "multipolygon"
      (by decide) (by decide) (by decide)).1 (by decide)⟩,
    ⟨by decide, by decide, by decide, by decide,
      (process_relation_geometry_choice demo appending memberless_rel "multipolygon"
      (by decide) (by decide) (by decide)).2 (by decide)⟩⟩

/-- The rejection test of `process_relation` lets a type value through exactly when it
is one of boundary, multipolygon and waterway. -/
theorem relation_type_rejected_eq_false_iff (type : String) :
    relation_type_rejected type = false ↔
      (type = "boundary" ∨ type = "multipolygon" ∨ type = "waterway") := by
  unfold relation_type_rejected
  by_cases h1 : type = "boundary"
  · subst h1; decide
  · by_cases h2 : type = "multipolygon"
    · subst h2; decide
    · by_cases h3 : type = "waterway"
      · subst h3; decide
      · simp [h1, h2, h3]

/-- C7: `process_relation` passes its eligibility test, and only then consults the
rule engine, exactly when the `type` tag of the relation is boundary, multipolygon or
waterway; otherwise it returns false and changes nothing. A relation of type
associatedStreet is therefore always rejected, and dropping the associatedStreet
comparison from the test changes its result for no type value. -/
theorem relation_eligibility (E : Collaborators σ) (g : output_gazetteer_t σ)
    (rel : Relation) :
    ((∃ type, TagList.get_value_by_key rel.tags "type" = some type ∧
        relation_type_rejected type = false) ↔
      (TagList.get_value_by_key rel.tags "type" = some "boundary" ∨
        TagList.get_value_by_key rel.tags "type" = some "multipolygon" ∨
        TagList.get_value_by_key rel.tags "type" = some "waterway")) ∧
    (process_relation E g rel).map (fun r => rule_engine_calls r.2.log) =
      some (rule_engine_calls g.log ++
        (if (TagList.get_value_by_key rel.tags "type" = some "boundary" ∨
        TagList.get_value_by_key rel.tags "type" = some "multipolygon" ∨
        TagList.get_value_by_key rel.tags "type" = some "waterway") then
          [Call.process_tags (OSMObject.relation rel)]
        else [])) ∧
    (¬ (TagList.get_value_by_key rel.tags "type" = some "boundary" ∨
        TagList.get_value_by_key rel.tags "type" = some "multipolygon" ∨
        TagList.get_value_by_key rel.tags "type" = some "waterway") →
      process_relation E g rel = some (false, g)) ∧
    (TagList.get_value_by_key rel.tags "type" = some "associatedStreet" →
      process_relation E g rel = some (false, g)) ∧
    (∀ type : String, relation_type_rejected type =
      relation_type_rejected_without_associatedStreet type) ∧
    (∀ type : String, relation_type_rejected type = false ↔
      (type = "boundary" ∨ type = "multipolygon" ∨ type = "waterway")) := by
  have key := relation_type_rejected_eq_false_iff
  refine ⟨?_, ?_, ?_, ?_, ?_, key⟩
  · constructor
    · rintro ⟨type, ht, hr⟩
      rw [ht]
      simpa using (key type).1 hr
    · intro h
      rcases h with h | h | h
      · exact ⟨_, h, by decide⟩
      · exact ⟨_, h, by decide⟩
      · exact ⟨_, h, by decide⟩
  · by_cases hap : g.append = true
    all_goals
      unfold process_relation
      cases ht : TagList.get_value_by_key rel.tags "type" with
      | none => simp [rule_engine_calls]
      | some type0 =>
        by_cases hr : relation_type_rejected type0 = true
        · have hne : ¬ (type0 = "boundary" ∨ type0 = "multipolygon" ∨ type0 = "waterway") := by
            intro h
            rw [(key type0).2 h] at hr
            exact Bool.false_ne_true hr
          simp [hr, hne]
        · have he : type0 = "boundary" ∨ type0 = "multipolygon" ∨ type0 = "waterway" :=
            (key type0).1 (by simpa using hr)
          by_cases hd : E.has_data (E.process_tags g.m_style (OSMObject.relation rel)) = true
          · by_cases hn : (E.rel_way_members_get rel).1 = 0
            · simp [hr, hd, hn, he, hap, style_process_tags, call, rule_engine_calls, Call.on_rule_engine, filter_nodes_get_list]
            · by_cases hw : type0 = "waterway"
              · subst hw
                cases hg : E.get_wkb_multiline
                    ((E.rel_way_members_get rel).2.map (resolve_nodes E)) 0 <;>
                  simp [hr, hd, hn, hg, hap, delete_and_copy_out_eq, style_process_tags,
                    call, rule_engine_calls, Call.on_rule_engine, filter_nodes_get_list]
              · have he2 : type0 = "boundary" ∨ type0 = "multipolygon" := by
                  simpa [hw] using he
                cases hg : E.get_wkb_multipolygon rel
                    ((E.rel_way_members_get rel).2.map (resolve_nodes E)) true <;>
                  simp [hr, hd, hn, hw, hg, he2, hap, delete_and_copy_out_eq,
                    style_process_tags, call, rule_engine_calls, Call.on_rule_engine, filter_nodes_get_list]
          · simp [hr, hd, he, style_process_tags, rule_engine_calls, Call.on_rule_engine, filter_nodes_get_list]
  · intro hne
    unfold process_relation
    cases ht : TagList.get_value_by_key rel.tags "type" with
    | none => rfl
    | some type0 =>
      have hr : relation_type_rejected type0 = true := by
        cases hb : relation_type_rejected type0 with
        | true => rfl
        | false =>
          exfalso
          apply hne
          rw [ht]
          simpa using (key type0).1 hb
      simp [hr]
  · intro hs
    unfold process_relation
    rw [hs]
    have hr : relation_type_rejected "associatedStreet" = true := by decide
    simp [hr]
  · intro type
    unfold relation_type_rejected_without_associatedStreet
    by_cases h : relation_type_rejected type = false
    · rw [h]
      rcases (key type).1 h with h1 | h1 | h1 <;> subst h1 <;> decide
    · have ht : relation_type_rejected type = true := by simpa using h
      have hnot : ¬ (type = "boundary" ∨ type = "multipolygon" ∨ type = "waterway") :=
        fun hx => h ((key type).2 hx)
      rw [not_or, not_or] at hnot
      simp [ht, hnot.1, hnot.2.1, hnot.2.2]

/-- Witness for `relation_eligibility`: a relation of type associatedStreet that also
carries a classifying tag is rejected, and nothing is called. -/
theorem relation_eligibility_witness :
    TagList.get_value_by_key street_rel.tags "type" = some "associatedStreet" ∧
    process_relation demo appending street_rel = some (false, appending) :=
  ⟨by decide, (relation_eligibility demo appending street_rel).2.2.2.1 (by decide)⟩

end gazetteer

end Osm2pgsql
